import Mathlib

/-!
Verification development for the KubeOne provisioning orchestration engine.

The Go sources are shallowly embedded:
* the `v1beta1` spec-normalizer (`SetDefaults_*` family) as pure functions on a
  `KubeOneCluster` record;
* the certificate authority manager (`CAKeyPair`, `NewSignedTLSCert`);
* the worker-fleet descriptor generator (`createMachineDeployment`,
  `machineSpec`).

Go pointer fields become `Option`, Go slices become `List`, Go `int` becomes
`Int`, and in-place mutation becomes record update.  Each embedded function
keeps the source's name and control flow.  Functions of the repository that are
not part of the provided sources (x509/PEM primitives, the `AWSSpec` payload
shape, well-known PKI path constants) are modelled from the specification and
marked as such in their doc comments.
-/

/-! ## Data model: cluster specification (`v1beta1` types) -/

/-- A Kubernetes taint (`corev1.Taint`): the defaulting code sets `key` and
`effect` only. -/
structure Taint where
  key : String
  value : String
  effect : String
deriving DecidableEq, Repr

/-- One host (`HostConfig`).  Go pointer-less struct; `taints` is a Go slice,
whose `nil` / empty distinction matters to the defaulting code, hence
`Option (List Taint)`. -/
structure HostConfig where
  publicAddress : String
  privateAddress : String
  sshPort : Int
  sshUsername : String
  sshPrivateKeyFile : String
  sshAgentSocket : String
  bastion : String
  bastionPort : Int
  bastionUser : String
  hostname : String
  id : Int
  isLeader : Bool
  taints : Option (List Taint)
deriving DecidableEq, Repr

/-- `ControlPlaneConfig`: the control-plane host set. -/
structure ControlPlaneConfig where
  hosts : List HostConfig
deriving DecidableEq, Repr

/-- `StaticWorkersConfig`: the static worker host set. -/
structure StaticWorkersConfig where
  hosts : List HostConfig
deriving DecidableEq, Repr

/-- `APIEndpoint`. -/
structure APIEndpoint where
  host : String
  port : Int
deriving DecidableEq, Repr

/-- `VersionConfig`: requested Kubernetes version. -/
structure VersionConfig where
  kubernetes : String
deriving DecidableEq, Repr

/-- `ContainerRuntimeDocker`: empty marker struct in Go. -/
inductive ContainerRuntimeDocker
  | mk
deriving DecidableEq, Repr

/-- `ContainerRuntimeContainerd`: empty marker struct in Go. -/
inductive ContainerRuntimeContainerd
  | mk
deriving DecidableEq, Repr

/-- `ContainerRuntimeConfig`: at most one runtime is chosen; Go pointers. -/
structure ContainerRuntimeConfig where
  docker : Option ContainerRuntimeDocker
  containerd : Option ContainerRuntimeContainerd
deriving DecidableEq, Repr

/-- Marker for an enabled cloud provider (the per-provider Go structs carry no
fields the embedded code reads). -/
inductive CloudProviderEnabled
  | mk
deriving DecidableEq, Repr

/-- `CloudProviderSpec`: exactly the provider pointers the embedded code
inspects, plus the remaining providers for the provider-name mapping. -/
structure CloudProviderSpec where
  aws : Option CloudProviderEnabled
  azure : Option CloudProviderEnabled
  digitalocean : Option CloudProviderEnabled
  gce : Option CloudProviderEnabled
  hetzner : Option CloudProviderEnabled
  openstack : Option CloudProviderEnabled
  packet : Option CloudProviderEnabled
  vsphere : Option CloudProviderEnabled
  noProvider : Option CloudProviderEnabled
  external : Bool
  cloudConfig : String
deriving DecidableEq, Repr

/-- `CanalSpec`: Canal CNI parameters. -/
structure CanalSpec where
  mtu : Int
deriving DecidableEq, Repr

/-- `CiliumSpec`: the defaulting code reads/writes `kubeProxyReplacement`. -/
structure CiliumSpec where
  kubeProxyReplacement : String
deriving DecidableEq, Repr

/-- `CNI`: the plugin variants the embedded defaulting code touches. -/
structure CNI where
  canal : Option CanalSpec
  cilium : Option CiliumSpec
deriving DecidableEq, Repr

/-- `ClusterNetworkConfig`. -/
structure ClusterNetworkConfig where
  podSubnet : String
  serviceSubnet : String
  serviceDomainName : String
  nodePortRange : String
  cni : Option CNI
deriving DecidableEq, Repr

/-- `ProxyConfig`. -/
structure ProxyConfig where
  http : String
  https : String
  noProxy : String
deriving DecidableEq, Repr

/-- `MachineControllerConfig`. -/
structure MachineControllerConfig where
  deploy : Bool
deriving DecidableEq, Repr

/-- `SystemPackages`. -/
structure SystemPackages where
  configureRepositories : Bool
deriving DecidableEq, Repr

/-- `RegistryConfiguration`. -/
structure RegistryConfiguration where
  overwriteRegistry : String
deriving DecidableEq, Repr

/-- `ImageAsset`: the image-repository override slot of one asset. -/
structure ImageAsset where
  imageRepository : String
deriving DecidableEq, Repr

/-- `AssetConfiguration`: the four assets whose repositories the defaulting
code propagates the registry override into. -/
structure AssetConfiguration where
  kubernetes : ImageAsset
  coreDNS : ImageAsset
  etcd : ImageAsset
  metricsServer : ImageAsset
deriving DecidableEq, Repr

/-- `MetricsServer` feature toggle. -/
structure MetricsServer where
  enable : Bool
deriving DecidableEq, Repr

/-- `StaticAuditLogConfig`. -/
structure StaticAuditLogConfig where
  logPath : String
  logMaxAge : Int
  logMaxBackup : Int
  logMaxSize : Int
deriving DecidableEq, Repr

/-- `StaticAuditLog` feature. -/
structure StaticAuditLog where
  enable : Bool
  config : StaticAuditLogConfig
deriving DecidableEq, Repr

/-- `OpenIDConnectConfig`: the claim/prefix conventions the defaulter fills. -/
structure OpenIDConnectConfig where
  clientID : String
  usernameClaim : String
  usernamePrefix : String
  groupsClaim : String
  groupsPrefix : String
  signingAlgs : String
deriving DecidableEq, Repr

/-- `OpenIDConnect` feature. -/
structure OpenIDConnect where
  enable : Bool
  config : OpenIDConnectConfig
deriving DecidableEq, Repr

/-- `Features`: the three feature blocks the embedded defaulting code touches. -/
structure Features where
  metricsServer : Option MetricsServer
  staticAuditLog : Option StaticAuditLog
  openidConnect : Option OpenIDConnect
deriving DecidableEq, Repr

/-- `Addons`. -/
structure Addons where
  enable : Bool
  path : String
deriving DecidableEq, Repr

/-- `KubeOneCluster`: the root entity over which `SetDefaults_KubeOneCluster`
works (dynamic worker pools are handled by the descriptor generator below and
are added to this record later in the file through a separate argument). -/
structure KubeOneCluster where
  name : String
  controlPlane : ControlPlaneConfig
  apiEndpoint : APIEndpoint
  cloudProvider : CloudProviderSpec
  versions : VersionConfig
  containerRuntime : ContainerRuntimeConfig
  clusterNetwork : ClusterNetworkConfig
  proxy : ProxyConfig
  staticWorkers : StaticWorkersConfig
  machineController : Option MachineControllerConfig
  systemPackages : Option SystemPackages
  registryConfiguration : Option RegistryConfiguration
  assetConfiguration : AssetConfiguration
  features : Features
  addons : Option Addons
deriving DecidableEq, Repr

/-! ## Spec normalizer (`apis/kubeone/v1beta1/defaults.go`) -/

/-- `DefaultPodSubnet`. -/
def DefaultPodSubnet : String := "10.244.0.0/16"

/-- `DefaultServiceSubnet`. -/
def DefaultServiceSubnet : String := "10.96.0.0/12"

/-- `DefaultServiceDNS`. -/
def DefaultServiceDNS : String := "cluster.local"

/-- `DefaultNodePortRange`. -/
def DefaultNodePortRange : String := "30000-32767"

/-- `DefaultStaticNoProxy`. -/
def DefaultStaticNoProxy : String := "127.0.0.1/8,localhost"

/-- `DefaultCanalMTU`. -/
def DefaultCanalMTU : Int := 1450

/-- `defaults(input, defaultValue string) string`. -/
def defaults (input defaultValue : String) : String :=
  if input ≠ "" then input else defaultValue

/-- `defaulti(input, defaultValue int) int`. -/
def defaulti (input defaultValue : Int) : Int :=
  if input ≠ 0 then input else defaultValue

/-- Go `strings.Join(elems, sep)`. -/
def goJoin (elems : List String) (sep : String) : String :=
  match elems with
  | [] => ""
  | e :: rest => rest.foldl (fun acc x => acc ++ sep ++ x) e

/-- Go `strings.TrimPrefix(s, "v")`: drops one leading `v` when present. -/
def goTrimLeadingV (s : String) : String :=
  match s.data with
  | 'v' :: rest => ⟨rest⟩
  | _ => s

/-- `defaultHostConfig(obj *HostConfig)`: address backfill, SSH-agent
fallback, SSH and bastion defaulting, in the source's statement order. -/
def defaultHostConfig (obj : HostConfig) : HostConfig :=
  let obj := if obj.publicAddress.length = 0 ∧ obj.privateAddress.length > 0 then
    { obj with publicAddress := obj.privateAddress } else obj
  let obj := if obj.privateAddress.length = 0 ∧ obj.publicAddress.length > 0 then
    { obj with privateAddress := obj.publicAddress } else obj
  let obj := if obj.sshPrivateKeyFile = "" then
    { obj with sshAgentSocket := defaults obj.sshAgentSocket "env:SSH_AUTH_SOCK" } else obj
  let obj := { obj with sshUsername := defaults obj.sshUsername "root" }
  let obj := { obj with sshPort := defaulti obj.sshPort 22 }
  let obj := { obj with bastionPort := defaulti obj.bastionPort 22 }
  { obj with bastionUser := defaults obj.bastionUser obj.sshUsername }

/-- The default control-plane taint assigned by `SetDefaults_Hosts`. -/
def masterTaint : Taint :=
  { key := "node-role.kubernetes.io/master", value := "", effect := "NoSchedule" }

/-- One iteration of the control-plane loop of `SetDefaults_Hosts`: assign the
index as ID, run `defaultHostConfig`, then default a `nil` taint slice to the
master `NoSchedule` taint. -/
def defaultControlPlaneHost (idx : Nat) (h : HostConfig) : HostConfig :=
  let h := { h with id := (idx : Int) }
  let h := defaultHostConfig h
  if h.taints = none then { h with taints := some [masterTaint] } else h

/-- One iteration of the static-worker loop of `SetDefaults_Hosts`: IDs
continue after the control-plane hosts and a `nil` taint slice becomes the
empty slice. -/
def defaultStaticWorkerHost (idx : Nat) (h : HostConfig) : HostConfig :=
  let h := { h with id := (idx : Int) }
  let h := defaultHostConfig h
  if h.taints = none then { h with taints := some [] } else h

/-- The control-plane `for idx := range` loop, carrying the running index. -/
def assignCP (idx : Nat) : List HostConfig → List HostConfig
  | [] => []
  | h :: t => defaultControlPlaneHost idx h :: assignCP (idx + 1) t

/-- The static-worker `for idx := range` loop; `idx` starts at
`len(obj.ControlPlane.Hosts)` since each worker gets `idx + len(cp)`. -/
def assignSW (idx : Nat) : List HostConfig → List HostConfig
  | [] => []
  | h :: t => defaultStaticWorkerHost idx h :: assignSW (idx + 1) t

/-- `obj.ControlPlane.Hosts[0].IsLeader = true`. -/
def setFirstLeader : List HostConfig → List HostConfig
  | [] => []
  | h :: t => { h with isLeader := true } :: t

/-- The control-plane part of `SetDefaults_Hosts`.  `setDefaultLeader` ends up
false exactly when some host already carries `IsLeader` (the loop only reads
the flag, never writes it). -/
def defaultedCPHosts (hosts : List HostConfig) : List HostConfig :=
  match hosts with
  | [] => hosts
  | _ :: _ =>
    let setDefaultLeader := !(hosts.any (·.isLeader))
    let assigned := assignCP 0 hosts
    if setDefaultLeader then setFirstLeader assigned else assigned

/-- The static-worker part of `SetDefaults_Hosts`; skipped entirely (early
`return`) when there are no control-plane hosts. -/
def defaultedSWHosts (cpHosts swHosts : List HostConfig) : List HostConfig :=
  match cpHosts with
  | [] => swHosts
  | _ :: _ => assignSW cpHosts.length swHosts

/-- `SetDefaults_Hosts`. -/
def SetDefaults_Hosts (obj : KubeOneCluster) : KubeOneCluster :=
  { obj with
    controlPlane := ⟨defaultedCPHosts obj.controlPlane.hosts⟩
    staticWorkers := ⟨defaultedSWHosts obj.controlPlane.hosts obj.staticWorkers.hosts⟩ }

/-- The body of `SetDefaults_APIEndpoints`: default the host to the first
control-plane host's public address, then the port to 6443 — except that the
early `return` on an empty host list also skips the port default. -/
def apiEndpointAfter (cpHosts : List HostConfig) (ep : APIEndpoint) : APIEndpoint :=
  if ep.host.length = 0 then
    match cpHosts with
    | [] => ep
    | h0 :: _ => { host := h0.publicAddress, port := defaulti ep.port 6443 }
  else
    { ep with port := defaulti ep.port 6443 }

/-- `SetDefaults_APIEndpoints`. -/
def SetDefaults_APIEndpoints (obj : KubeOneCluster) : KubeOneCluster :=
  { obj with apiEndpoint := apiEndpointAfter obj.controlPlane.hosts obj.apiEndpoint }

/-- The body of `SetDefaults_Versions`: strip a leading `v`. -/
def versionsAfter (v : VersionConfig) : VersionConfig :=
  { v with kubernetes := goTrimLeadingV v.kubernetes }

/-- `SetDefaults_Versions`. -/
def SetDefaults_Versions (obj : KubeOneCluster) : KubeOneCluster :=
  { obj with versions := versionsAfter obj.versions }

/-- Parsed semantic version (the fields `Masterminds/semver` exposes that the
embedded code consults). -/
structure SemVersion where
  major : Nat
  minor : Nat
  patch : Nat
  prerelease : List Char
deriving DecidableEq, Repr

/-- Split a character list on a separator character. -/
def splitOnChar (sep : Char) : List Char → List (List Char)
  | [] => [[]]
  | c :: rest =>
    let r := splitOnChar sep rest
    if c = sep then [] :: r
    else
      match r with
      | h :: t => (c :: h) :: t
      | [] => [[c]]

/-- Characters before the first occurrence of `sep`. -/
def takeUntilChar (sep : Char) : List Char → List Char
  | [] => []
  | c :: rest => if c = sep then [] else c :: takeUntilChar sep rest

/-- Characters after the first occurrence of `sep` (empty when absent). -/
def dropThroughChar (sep : Char) : List Char → List Char
  | [] => []
  | c :: rest => if c = sep then rest else dropThroughChar sep rest

/-- Decimal digits to a number; `none` when empty or non-digit. -/
def parseNatDigits : List Char → Option Nat
  | [] => none
  | l => go l 0
where
  go : List Char → Nat → Option Nat
    | [], acc => some acc
    | c :: rest, acc =>
      if c.isDigit then go rest (acc * 10 + (c.toNat - '0'.toNat)) else none

/-- Modelled from the library behavior the source relies on:
`semver.NewVersion` (Masterminds, lenient form) accepts an optional leading
`v`, one to three dot-separated numeric fields, an optional `-prerelease`
and an optional `+metadata` suffix; anything else fails. -/
def semverNewVersion (s : String) : Option SemVersion :=
  let chars := match s.data with
    | 'v' :: rest => rest
    | other => other
  let noMeta := takeUntilChar '+' chars
  let core := takeUntilChar '-' noMeta
  let pre := dropThroughChar '-' noMeta
  match splitOnChar '.' core with
  | [a] => (parseNatDigits a).map fun n => ⟨n, 0, 0, pre⟩
  | [a, b] =>
    match parseNatDigits a, parseNatDigits b with
    | some x, some y => some ⟨x, y, 0, pre⟩
    | _, _ => none
  | [a, b, c] =>
    match parseNatDigits a, parseNatDigits b, parseNatDigits c with
    | some x, some y, some z => some ⟨x, y, z, pre⟩
    | _, _, _ => none
  | _ => none

/-- Modelled from the library behavior the source relies on: the check of the
constraint `">= 1.22"`; a prerelease version never satisfies a constraint
written without a prerelease. -/
def gteKube122 (v : SemVersion) : Bool :=
  v.prerelease = [] && (v.major > 1 || (v.major = 1 && v.minor ≥ 22))

/-- The body of `SetDefaults_ContainerRuntime`: keep an explicit choice;
otherwise pick containerd when the (already sanitized) Kubernetes version
parses and is at least 1.22, and leave the field unset when the version does
not parse or is older. -/
def containerRuntimeAfter (kubernetesVersion : String)
    (cr : ContainerRuntimeConfig) : ContainerRuntimeConfig :=
  if cr.docker.isSome then cr
  else if cr.containerd.isSome then cr
  else
    match semverNewVersion kubernetesVersion with
    | none => cr
    | some actualVer =>
      if gteKube122 actualVer then { cr with containerd := some ⟨⟩ } else cr

/-- `SetDefaults_ContainerRuntime`. -/
def SetDefaults_ContainerRuntime (obj : KubeOneCluster) : KubeOneCluster :=
  { obj with
    containerRuntime := containerRuntimeAfter obj.versions.kubernetes obj.containerRuntime }

/-- The provider `switch` of `SetDefaults_ClusterNetwork` computing
`defaultCanal.MTU`.  Note the source initializes the MTU to `DefaultCanalMTU`
(1450, non-zero) and then passes it through `defaulti`, so every provider
branch returns 1450 and the provider-specific values (8951, 1410, 1400) are
unreachable. -/
def canalDefaultMTU (provider : CloudProviderSpec) : Int :=
  let mtu := DefaultCanalMTU
  if provider.aws.isSome then defaulti mtu 8951
  else if provider.gce.isSome then defaulti mtu 1410
  else if provider.hetzner.isSome then defaulti mtu 1400
  else if provider.openstack.isSome then defaulti mtu 1400
  else mtu

/-- The CNI steps of `SetDefaults_ClusterNetwork`, which only read and write
`obj.ClusterNetwork.CNI`, in the source's statement order: install the default
Canal CNI when none is set, fill a zero Canal MTU with the default MTU, and
default an empty Cilium kube-proxy-replacement to `"disabled"`. -/
def cniAfter (defaultCanalMTUValue : Int) (cni0 : Option CNI) : Option CNI :=
  let cni1 := if cni0.isNone then
    some { canal := some { mtu := defaultCanalMTUValue }, cilium := none } else cni0
  let cni2 := match cni1 with
    | some cniSpec =>
      match cniSpec.canal with
      | some canalSpec =>
        if canalSpec.mtu = 0 then
          some { cniSpec with canal := some { canalSpec with mtu := defaultCanalMTUValue } }
        else cni1
      | none => cni1
    | none => cni1
  match cni2 with
  | some cniSpec =>
    match cniSpec.cilium with
    | some ciliumSpec =>
      if ciliumSpec.kubeProxyReplacement = "" then
        some { cniSpec with cilium := some { ciliumSpec with kubeProxyReplacement := "disabled" } }
      else cni2
    | none => cni2
  | none => cni2

/-- The body of `SetDefaults_ClusterNetwork`: fixed string defaults on the
subnets, domain and node-port range, then the CNI steps. -/
def clusterNetworkAfter (provider : CloudProviderSpec)
    (cn : ClusterNetworkConfig) : ClusterNetworkConfig :=
  { podSubnet := defaults cn.podSubnet DefaultPodSubnet
    serviceSubnet := defaults cn.serviceSubnet DefaultServiceSubnet
    serviceDomainName := defaults cn.serviceDomainName DefaultServiceDNS
    nodePortRange := defaults cn.nodePortRange DefaultNodePortRange
    cni := cniAfter (canalDefaultMTU provider) cn.cni }

/-- `SetDefaults_ClusterNetwork`. -/
def SetDefaults_ClusterNetwork (obj : KubeOneCluster) : KubeOneCluster :=
  { obj with clusterNetwork := clusterNetworkAfter obj.cloudProvider obj.clusterNetwork }

/-- The body of `SetDefaults_Proxy`: when an HTTP or HTTPS proxy is set,
rebuild `NoProxy` from the static set, service domain, pod and service
subnets, and any previous `NoProxy` value, comma-joined. -/
def proxyAfter (cn : ClusterNetworkConfig) (p : ProxyConfig) : ProxyConfig :=
  if p.http = "" ∧ p.https = "" then p
  else
    let noproxy := [DefaultStaticNoProxy, cn.serviceDomainName, cn.podSubnet, cn.serviceSubnet]
    let noproxy := if p.noProxy ≠ "" then noproxy ++ [p.noProxy] else noproxy
    { p with noProxy := goJoin noproxy "," }

/-- `SetDefaults_Proxy`.  It runs after `SetDefaults_ClusterNetwork`, so the
subnet and domain values it reads are the defaulted ones. -/
def SetDefaults_Proxy (obj : KubeOneCluster) : KubeOneCluster :=
  { obj with proxy := proxyAfter obj.clusterNetwork obj.proxy }

/-- The body of `SetDefaults_MachineController`. -/
def machineControllerAfter (mc : Option MachineControllerConfig) :
    Option MachineControllerConfig :=
  match mc with
  | none => some { deploy := true }
  | some c => some c

/-- `SetDefaults_MachineController`. -/
def SetDefaults_MachineController (obj : KubeOneCluster) : KubeOneCluster :=
  { obj with machineController := machineControllerAfter obj.machineController }

/-- The body of `SetDefaults_SystemPackages`. -/
def systemPackagesAfter (sp : Option SystemPackages) : Option SystemPackages :=
  match sp with
  | none => some { configureRepositories := true }
  | some c => some c

/-- `SetDefaults_SystemPackages`. -/
def SetDefaults_SystemPackages (obj : KubeOneCluster) : KubeOneCluster :=
  { obj with systemPackages := systemPackagesAfter obj.systemPackages }

/-- The body of `SetDefaults_AssetConfiguration`: only active when a registry
override is configured; propagates it into each unset image repository. -/
def assetConfigurationAfter (reg : Option RegistryConfiguration)
    (ac : AssetConfiguration) : AssetConfiguration :=
  match reg with
  | none => ac
  | some r =>
    if r.overwriteRegistry = "" then ac
    else
      { kubernetes := ⟨defaults ac.kubernetes.imageRepository r.overwriteRegistry⟩
        coreDNS := ⟨defaults ac.coreDNS.imageRepository r.overwriteRegistry⟩
        etcd := ⟨defaults ac.etcd.imageRepository r.overwriteRegistry⟩
        metricsServer := ⟨defaults ac.metricsServer.imageRepository r.overwriteRegistry⟩ }

/-- `SetDefaults_AssetConfiguration`. -/
def SetDefaults_AssetConfiguration (obj : KubeOneCluster) : KubeOneCluster :=
  { obj with
    assetConfiguration := assetConfigurationAfter obj.registryConfiguration obj.assetConfiguration }

/-- `defaultStaticAuditLogConfig`. -/
def defaultStaticAuditLogConfig (obj : StaticAuditLogConfig) : StaticAuditLogConfig :=
  { obj with
    logPath := defaults obj.logPath "/var/log/kubernetes/audit.log"
    logMaxAge := defaulti obj.logMaxAge 30
    logMaxBackup := defaulti obj.logMaxBackup 3
    logMaxSize := defaulti obj.logMaxSize 100 }

/-- `defaultOpenIDConnect`. -/
def defaultOpenIDConnect (config : OpenIDConnectConfig) : OpenIDConnectConfig :=
  { config with
    clientID := defaults config.clientID "kubernetes"
    usernameClaim := defaults config.usernameClaim "sub"
    usernamePrefix := defaults config.usernamePrefix "oidc:"
    groupsClaim := defaults config.groupsClaim "groups"
    groupsPrefix := defaults config.groupsPrefix "oidc:"
    signingAlgs := defaults config.signingAlgs "RS256" }

/-- The metrics-server step of `SetDefaults_Features`. -/
def metricsServerAfter (ms : Option MetricsServer) : Option MetricsServer :=
  if ms.isNone then some { enable := true } else ms

/-- The static-audit-log step of `SetDefaults_Features`: the config is
defaulted only when the feature block exists and is enabled. -/
def staticAuditLogAfter (sal : Option StaticAuditLog) : Option StaticAuditLog :=
  match sal with
  | some s =>
    if s.enable then some { s with config := defaultStaticAuditLogConfig s.config } else some s
  | none => none

/-- The OpenID-Connect step of `SetDefaults_Features`. -/
def openidConnectAfter (oidc : Option OpenIDConnect) : Option OpenIDConnect :=
  match oidc with
  | some o =>
    if o.enable then some { o with config := defaultOpenIDConnect o.config } else some o
  | none => none

/-- The body of `SetDefaults_Features`: the three steps each touch only their
own feature block. -/
def featuresAfter (f : Features) : Features :=
  { metricsServer := metricsServerAfter f.metricsServer
    staticAuditLog := staticAuditLogAfter f.staticAuditLog
    openidConnect := openidConnectAfter f.openidConnect }

/-- `SetDefaults_Features`. -/
def SetDefaults_Features (obj : KubeOneCluster) : KubeOneCluster :=
  { obj with features := featuresAfter obj.features }

/-- The body of `SetDefaults_Addons`. -/
def addonsAfter (a : Option Addons) : Option Addons :=
  match a with
  | some ad => if ad.enable then some { ad with path := defaults ad.path "./addons" } else some ad
  | none => none

/-- `SetDefaults_Addons`. -/
def SetDefaults_Addons (obj : KubeOneCluster) : KubeOneCluster :=
  { obj with addons := addonsAfter obj.addons }

/-- `SetDefaults_KubeOneCluster`: the normalizer, in the source's call order. -/
def SetDefaults_KubeOneCluster (obj : KubeOneCluster) : KubeOneCluster :=
  SetDefaults_Addons
    (SetDefaults_Features
      (SetDefaults_AssetConfiguration
        (SetDefaults_SystemPackages
          (SetDefaults_MachineController
            (SetDefaults_Proxy
              (SetDefaults_ClusterNetwork
                (SetDefaults_ContainerRuntime
                  (SetDefaults_Versions
                    (SetDefaults_APIEndpoints
                      (SetDefaults_Hosts obj))))))))))

/-! ## Certificate authority manager (`pkg/certificate/certificate.go`)

The x509/PEM primitives (`certutil.ParseCertsPEM`, `keyutil.ParsePrivateKeyPEM`,
`newPrivateKey`, `newSignedCert`, the PEM encoders) and the two PKI path
constants live outside the provided sources; they are modelled from the
specification below, keeping only the structure the embedded functions
inspect.  Key generation is randomized in Go, so a certificate is modelled by
its structural content (subject, SANs, key usage, issuer), exactly what the
spec says tests must assert. -/

/-- Extended key usage values the embedded code mentions. -/
inductive ExtKeyUsage
  | serverAuth
  | clientAuth
deriving DecidableEq, Repr

/-- An x509 certificate, reduced to the structural fields the specification
talks about: subject common name, subject alternative DNS names, extended key
usage, and the issuer (identified by its subject common name). -/
structure Certificate where
  subjectCommonName : String
  dnsNames : List String
  extKeyUsage : List ExtKeyUsage
  issuerCommonName : String
deriving DecidableEq, Repr

/-- An asymmetric private key as parsed from a PEM bundle; the payload `Nat`
stands for the key material. -/
inductive ParsedPrivateKey
  | rsa (material : Nat)
  | ecdsa (material : Nat)
  | ed25519 (material : Nat)
deriving DecidableEq, Repr

/-- What one PEM entry of a PKI bundle parses as. -/
inductive PEMBlob
  | malformed
  | certs (cs : List Certificate)
  | key (k : ParsedPrivateKey)
deriving DecidableEq, Repr

/-- Errors of the certificate authority manager. -/
inductive CAError
  | notFound (path : String)
  | parseError
  | emptyCerts
  | notRSA
deriving DecidableEq, Repr

/-- Association-list lookup keyed by strings (Go map indexing with `, found`). -/
def mapLookup {α : Type} : List (String × α) → String → Option α
  | [], _ => none
  | (k', v) :: t, k => if k' = k then some v else mapLookup t k

/-- Modelled from the spec: the well-known CA-certificate path key of the PKI
bundle (`KubernetesCACertPath`, defined outside the provided sources). -/
def KubernetesCACertPath : String := "/etc/kubernetes/pki/ca.crt"

/-- Modelled from the spec: the well-known CA-key path key of the PKI bundle
(`KubernetesCAKeyPath`, defined outside the provided sources). -/
def KubernetesCAKeyPath : String := "/etc/kubernetes/pki/ca.key"

/-- `configupload.Configuration`: the PKI bundle, a mapping from well-known
file-path keys to raw PEM content. -/
structure Configuration where
  kubernetesPKI : List (String × PEMBlob)

/-- Modelled from the spec: `certutil.ParseCertsPEM` — a parse error on
malformed PEM, otherwise the list of certificates the entry decodes to. -/
def ParseCertsPEM : PEMBlob → Except CAError (List Certificate)
  | .certs cs => .ok cs
  | _ => .error .parseError

/-- Modelled from the spec: `keyutil.ParsePrivateKeyPEM` — a parse error on
malformed PEM, otherwise the parsed private key of whatever type it is. -/
def ParsePrivateKeyPEM : PEMBlob → Except CAError ParsedPrivateKey
  | .key k => .ok k
  | _ => .error .parseError

/-- `CAKeyPair(config *configupload.Configuration)`: loads the CA RSA key and
the first parsed certificate from the PKI bundle, mirroring the source's
check order. -/
def CAKeyPair (config : Configuration) : Except CAError (Nat × Certificate) :=
  match mapLookup config.kubernetesPKI KubernetesCACertPath with
  | none => .error (.notFound KubernetesCACertPath)
  | some caCert =>
    match mapLookup config.kubernetesPKI KubernetesCAKeyPath with
    | none => .error (.notFound KubernetesCAKeyPath)
    | some caKey =>
      match ParseCertsPEM caCert with
      | .error e => .error e
      | .ok certs =>
        match certs with
        | [] => .error .emptyCerts
        | c0 :: _ =>
          match ParsePrivateKeyPEM caKey with
          | .error e => .error e
          | .ok possibleKey =>
            match possibleKey with
            | .rsa material => .ok (material, c0)
            | _ => .error .notRSA

/-- The certificate request assembled by `NewSignedTLSCert`
(`certutil.Config`). -/
structure CertConfig where
  commonName : String
  dnsNames : List String
  usages : List ExtKeyUsage
deriving DecidableEq, Repr

/-- Modelled from the spec: `newSignedCert(cfg, key, caCert, caKey)` issues a
certificate carrying the request's subject, SANs and usages, signed by the CA
(so its issuer is the CA certificate's subject). -/
def newSignedCert (cfg : CertConfig) (caCert : Certificate) : Certificate :=
  { subjectCommonName := cfg.commonName
    dnsNames := cfg.dnsNames
    extKeyUsage := cfg.usages
    issuerCommonName := caCert.subjectCommonName }

/-- `NewSignedTLSCert(name, namespace, domain, caKey, caCert)`: the string
construction and the certificate request exactly as in the source; the fresh
private key and the PEM-encoded three-entry output bundle are abstracted away,
returning the signed leaf certificate the bundle embeds. -/
def NewSignedTLSCert (name ns domain : String) (caCert : Certificate) : Certificate :=
  let serviceCommonName := goJoin [name, ns, "svc"] "."
  let serviceFQDNCommonName := goJoin [serviceCommonName, domain, ""] "."
  let altdnsNames := [serviceFQDNCommonName, serviceCommonName]
  let certCfg : CertConfig :=
    { commonName := serviceCommonName
      dnsNames := altdnsNames
      usages := [.serverAuth] }
  newSignedCert certCfg caCert

/-! ## Worker-fleet descriptor generator (`machinecontroller` package)

`createMachineDeployment` and `machineSpec` are embedded from the source.  The
JSON payloads handled by `encoding/json` are modelled by a small JSON value
type; the `AWSSpec` payload shape (declared outside the provided sources) is
modelled from the spec by the one field the embedded code manipulates, its tag
map. -/

/-- A JSON value (`encoding/json` data). -/
inductive JsonValue
  | null
  | bool (b : Bool)
  | num (n : Int)
  | str (s : String)
  | arr (elems : List JsonValue)
  | obj (fields : List (String × JsonValue))

/-- Go map assignment `m[k] = v` over an association list with unique keys:
replace the existing binding or append a new one. -/
def mapSet {α : Type} : List (String × α) → String → α → List (String × α)
  | [], k, v => [(k, v)]
  | (k', v') :: t, k, v =>
    if k' = k then (k', v) :: t else (k', v') :: mapSet t k v

/-- Number of bindings of key `k` in an association list. -/
def countKey {α : Type} : List (String × α) → String → Nat
  | [], _ => 0
  | e :: t, k => (if e.1 = k then 1 else 0) + countKey t k

/-- Decode a JSON object's fields into a Go `map[string]string`: every value
must be a string; later duplicate keys overwrite earlier ones (Go unmarshal
semantics). -/
def decodeStringMapFields : List (String × JsonValue) → List (String × String) →
    Option (List (String × String))
  | [], acc => some acc
  | (k, .str v) :: t, acc => decodeStringMapFields t (mapSet acc k v)
  | _, _ => none

/-- Errors of the descriptor generator.  `panicNilReplicas` models the Go
runtime panic raised by dereferencing a nil `Replicas` pointer — it is not an
error value returned to the caller. -/
inductive GenError
  | missingCloudProviderSpec
  | awsSpecParseError
  | workersetSpecParseError
  | panicNilReplicas
deriving DecidableEq, Repr

/-- Whether a generator outcome is an error value returned to the caller (as
opposed to a runtime panic). -/
def GenError.isReturnedError : GenError → Bool
  | .panicNilReplicas => false
  | _ => true

/-- Modelled from the spec: the `AWSSpec` provider payload shape — only the
tag map, the one field the embedded code reads and writes, is modelled; a Go
`nil` map is `none`. -/
structure AWSSpec where
  tags : Option (List (String × String))

/-- Modelled from the spec: `json.Unmarshal` of a provider payload into
`AWSSpec` — fails on a non-object payload or a tag field that is not a
string map. -/
def unmarshalAWSSpec (j : JsonValue) : Except GenError AWSSpec :=
  match j with
  | .obj fields =>
    match mapLookup fields "tags" with
    | none => .ok { tags := none }
    | some .null => .ok { tags := none }
    | some (.obj tagFields) =>
      match decodeStringMapFields tagFields [] with
      | some m => .ok { tags := some m }
      | none => .error .awsSpecParseError
    | some _ => .error .awsSpecParseError
  | _ => .error .awsSpecParseError

/-- Encode one Go map entry as a JSON object field. -/
def strEntryEncode (kv : String × String) : String × JsonValue := (kv.1, JsonValue.str kv.2)

/-- Decode one JSON object field back to a Go map entry; `none` for a
non-string value. -/
def strEntryDecode (kv : String × JsonValue) : Option (String × String) :=
  match kv.2 with
  | .str s => some (kv.1, s)
  | _ => none

/-- Modelled from the spec: `json.Marshal` of an `AWSSpec` value back to a
JSON payload. -/
def marshalAWSSpec (s : AWSSpec) : JsonValue :=
  .obj [("tags",
    match s.tags with
    | none => .null
    | some m => .obj (m.map strEntryEncode))]

/-- Modelled from the spec: a static network configuration block of a worker
pool (`ProviderSpec.Network`); its presence alone drives the embedded code. -/
structure ProviderStaticNetworkConfig where
  cidr : String
  gateway : String
  dns : List String

/-- Modelled from the spec: `kubeoneapi.ProviderSpec`, the worker-pool
provider block, with the fields the embedded generator reads. -/
structure ProviderSpec where
  cloudProviderSpec : Option JsonValue
  labels : List (String × String)
  taints : List Taint
  annotations : List (String × String)
  machineAnnotations : List (String × String)
  network : Option ProviderStaticNetworkConfig

/-- `kubeoneapi.DynamicWorkerConfig`: one worker pool; `replicas` is a Go
`*int`. -/
structure DynamicWorkerConfig where
  name : String
  replicas : Option Int
  config : ProviderSpec

/-- Modelled from the spec: `CloudProviderName()`, the provider identifier
written into the serialized payload. -/
def cloudProviderNameOf (p : CloudProviderSpec) : String :=
  if p.aws.isSome then "aws"
  else if p.azure.isSome then "azure"
  else if p.digitalocean.isSome then "digitalocean"
  else if p.gce.isSome then "gce"
  else if p.hetzner.isSome then "hetzner"
  else if p.openstack.isSome then "openstack"
  else if p.packet.isSome then "packet"
  else if p.vsphere.isSome then "vsphere"
  else if p.noProvider.isSome then "none"
  else ""

/-- `k8s labels.Merge(labels, workersetNameLabels)`: union, right side wins. -/
def labelsMerge (a b : List (String × String)) : List (String × String) :=
  b.foldl (fun acc kv => mapSet acc kv.1 kv.2) a

/-- Go `int32(x)`: two's-complement wrap-around to 32 bits. -/
def toInt32 (n : Int) : Int :=
  (n + 2 ^ 31) % 2 ^ 32 - 2 ^ 31

/-- `machineSpec(cluster, workerset, provider)`: returns the provider payload
as a generic string-keyed map; for AWS it first injects the cluster-ownership
tag `kubernetes.io/cluster/<clusterName> = shared` into the payload's tag map
and re-serializes it. -/
def machineSpec (cluster : KubeOneCluster) (workerset : DynamicWorkerConfig)
    (provider : CloudProviderSpec) : Except GenError (List (String × JsonValue)) :=
  match workerset.config.cloudProviderSpec with
  | none => .error .missingCloudProviderSpec
  | some specRaw0 =>
    let step : Except GenError JsonValue :=
      if provider.aws.isSome then
        match unmarshalAWSSpec specRaw0 with
        | .error e => .error e
        | .ok awsSpec =>
          let tagName := "kubernetes.io/cluster/" ++ cluster.name
          let tagValue := "shared"
          let tags := match awsSpec.tags with
            | none => []
            | some m => m
          let awsSpec : AWSSpec := { awsSpec with tags := some (mapSet tags tagName tagValue) }
          .ok (marshalAWSSpec awsSpec)
      else .ok specRaw0
    match step with
    | .error e => .error e
    | .ok specRaw =>
      match specRaw with
      | .obj fields => .ok fields
      | .null => .ok []
      | _ => .error .workersetSpecParseError

/-- The generated `MachineDeployment` object, with the fields the source
fills in. -/
structure MachineDeployment where
  name : String
  namespaceName : String
  annotations : List (String × String)
  paused : Bool
  replicas : Int
  selectorMatchLabels : List (String × String)
  strategyType : String
  maxSurge : Int
  maxUnavailable : Int
  minReadySeconds : Int
  templateLabels : List (String × String)
  kubeletVersion : String
  providerSpecConfig : ProviderSpec
  providerSpecCloudProvider : String
  taints : List Taint

/-- `createMachineDeployment(cluster, workerset)`: generate the descriptor.
The marshaled provider payload is kept structurally (`providerSpecConfig`
with the updated `cloudProviderSpec`, plus the provider name), since the
embedded JSON serialization of it cannot fail.  `replicas := int32(*workerset.Replicas)`
panics in Go when `Replicas` is nil; the panic is modelled as the
non-returned outcome `GenError.panicNilReplicas`. -/
def createMachineDeployment (cluster : KubeOneCluster)
    (workerset : DynamicWorkerConfig) : Except GenError MachineDeployment :=
  match machineSpec cluster workerset cluster.cloudProvider with
  | .error e => .error e
  | .ok cloudProviderSpecMap =>
    let cloudProviderSpecJSON := JsonValue.obj cloudProviderSpecMap
    let workersetConfig := { workerset.config with cloudProviderSpec := some cloudProviderSpecJSON }
    match workerset.replicas with
    | none => .error .panicNilReplicas
    | some r =>
      let replicas := toInt32 r
      let maxSurge : Int := 1
      let maxUnavailable : Int := 0
      let minReadySeconds : Int := 0
      let workersetNameLabels : List (String × String) := [("workerset", workerset.name)]
      let (maxSurge, maxUnavailable) :=
        if workersetConfig.network.isSome then ((0 : Int), (1 : Int))
        else (maxSurge, maxUnavailable)
      .ok
        { name := workerset.name
          namespaceName := "kube-system"
          annotations := workersetConfig.annotations
          paused := false
          replicas := replicas
          selectorMatchLabels := workersetNameLabels
          strategyType := "RollingUpdate"
          maxSurge := maxSurge
          maxUnavailable := maxUnavailable
          minReadySeconds := minReadySeconds
          templateLabels := labelsMerge workersetConfig.labels workersetNameLabels
          kubeletVersion := cluster.versions.kubernetes
          providerSpecConfig := workersetConfig
          providerSpecCloudProvider := cloudProviderNameOf cluster.cloudProvider
          taints := workersetConfig.taints }

/-! ## Net-effect helpers and concrete inputs

The `*After`-style helpers below give the per-field net effect of
`defaultHostConfig`'s sequential mutations; the lemma
`defaultHostConfig_eq` proves them equal to the embedded function.  The
concrete `ex*` values are the inputs the claims are evaluated on. -/

/-- Net effect of the address backfill on the public address. -/
def pubAfter (pub priv : String) : String :=
  if pub.length = 0 ∧ priv.length > 0 then priv else pub

/-- Net effect of the address backfill on the private address (reads the
already-backfilled public address, as the source's second `if` runs after the
first). -/
def privAfter (pub priv : String) : String :=
  if priv.length = 0 ∧ (pubAfter pub priv).length > 0 then pubAfter pub priv else priv

/-- Net effect of the SSH-agent-socket fallback. -/
def sockAfter (keyFile sock : String) : String :=
  if keyFile = "" then defaults sock "env:SSH_AUTH_SOCK" else sock

/-- Net effect of the control-plane taint default. -/
def cpTaintsAfter : Option (List Taint) → Option (List Taint)
  | none => some [masterTaint]
  | some l => some l

/-- Net effect of the static-worker taint default. -/
def swTaintsAfter : Option (List Taint) → Option (List Taint)
  | none => some []
  | some l => some l

/-- The integer ID sequence `n, n+1, ..., n+len-1`. -/
def idsFrom : Nat → Nat → List Int
  | _, 0 => []
  | n, len + 1 => (n : Int) :: idsFrom (n + 1) len

/-- Whether a parsed private key is RSA. -/
def ParsedPrivateKey.isRSA : ParsedPrivateKey → Bool
  | .rsa _ => true
  | _ => false

/-- The tag map of the provider payload produced by `machineSpec`, read back
from the JSON object (empty when generation failed or no tag object exists). -/
def tagsOfMachineSpec (cluster : KubeOneCluster) (workerset : DynamicWorkerConfig) :
    List (String × String) :=
  match machineSpec cluster workerset cluster.cloudProvider with
  | .ok fields =>
    match mapLookup fields "tags" with
    | some (.obj tagFields) => tagFields.filterMap strEntryDecode
    | _ => []
  | .error _ => []

/-- A host with every field zero-valued. -/
def emptyHost : HostConfig :=
  { publicAddress := "", privateAddress := "", sshPort := 0, sshUsername := "",
    sshPrivateKeyFile := "", sshAgentSocket := "", bastion := "", bastionPort := 0,
    bastionUser := "", hostname := "", id := 0, isLeader := false, taints := none }

/-- No cloud provider configured. -/
def emptyCloudProvider : CloudProviderSpec :=
  { aws := none, azure := none, digitalocean := none, gce := none, hetzner := none,
    openstack := none, packet := none, vsphere := none, noProvider := none,
    external := false, cloudConfig := "" }

/-- A cluster specification with every field zero-valued. -/
def emptyCluster : KubeOneCluster :=
  { name := "", controlPlane := ⟨[]⟩, apiEndpoint := ⟨"", 0⟩,
    cloudProvider := emptyCloudProvider, versions := ⟨""⟩,
    containerRuntime := ⟨none, none⟩,
    clusterNetwork := { podSubnet := "", serviceSubnet := "", serviceDomainName := "",
                        nodePortRange := "", cni := none },
    proxy := { http := "", https := "", noProxy := "" }, staticWorkers := ⟨[]⟩,
    machineController := none, systemPackages := none, registryConfiguration := none,
    assetConfiguration := ⟨⟨""⟩, ⟨""⟩, ⟨""⟩, ⟨""⟩⟩,
    features := ⟨none, none, none⟩, addons := none }

/-- A valid one-control-plane-host spec with an HTTP proxy configured. -/
def exProxyCluster : KubeOneCluster :=
  { emptyCluster with
    name := "demo"
    controlPlane := ⟨[{ emptyHost with publicAddress := "10.0.0.1" }]⟩
    versions := ⟨"v1.22.2"⟩
    proxy := { http := "http://proxy.example.com", https := "", noProxy := "" } }

/-- The same kind of spec without a proxy. -/
def exPlainCluster : KubeOneCluster :=
  { emptyCluster with
    name := "demo"
    controlPlane := ⟨[{ emptyHost with publicAddress := "10.0.0.1" }]⟩
    staticWorkers := ⟨[{ emptyHost with publicAddress := "10.0.0.9" }]⟩
    versions := ⟨"v1.23.0"⟩ }

/-- Two control-plane hosts, none flagged leader. -/
def exTwoHostCluster : KubeOneCluster :=
  { emptyCluster with
    name := "demo"
    controlPlane := ⟨[{ emptyHost with publicAddress := "10.0.0.1" },
                      { emptyHost with publicAddress := "10.0.0.2" }]⟩
    versions := ⟨"v1.23.0"⟩ }

/-- Two control-plane hosts, the second one explicitly flagged leader. -/
def exLeaderCluster : KubeOneCluster :=
  { emptyCluster with
    name := "demo"
    controlPlane := ⟨[{ emptyHost with publicAddress := "10.0.0.1" },
                      { emptyHost with publicAddress := "10.0.0.2", isLeader := true }]⟩ }

/-- Two control-plane hosts and one static worker. -/
def exWorkersCluster : KubeOneCluster :=
  { emptyCluster with
    name := "demo"
    controlPlane := ⟨[{ emptyHost with publicAddress := "10.0.0.1" },
                      { emptyHost with publicAddress := "10.0.0.2" }]⟩
    staticWorkers := ⟨[{ emptyHost with publicAddress := "10.0.0.9" }]⟩ }

/-- No control-plane hosts; one static worker carrying a stale ID. -/
def exNoCPCluster : KubeOneCluster :=
  { emptyCluster with
    staticWorkers := ⟨[{ emptyHost with publicAddress := "10.0.0.9", id := 7 }]⟩ }

/-- AWS as the cloud provider, CNI left unset. -/
def exAWSCluster : KubeOneCluster :=
  { emptyCluster with
    name := "demo"
    cloudProvider := { emptyCloudProvider with aws := some .mk }
    controlPlane := ⟨[{ emptyHost with publicAddress := "10.0.0.1" }]⟩ }

/-- No recognized cloud provider, CNI left unset. -/
def exNoProviderCluster : KubeOneCluster :=
  { emptyCluster with
    name := "demo"
    controlPlane := ⟨[{ emptyHost with publicAddress := "10.0.0.1" }]⟩ }

/-- Kubernetes `v1.23.0`, no container runtime chosen. -/
def exRuntimeHighCluster : KubeOneCluster :=
  { exNoProviderCluster with versions := ⟨"v1.23.0"⟩ }

/-- Kubernetes `v1.20.5`, no container runtime chosen. -/
def exRuntimeLowCluster : KubeOneCluster :=
  { exNoProviderCluster with versions := ⟨"v1.20.5"⟩ }

/-- A concrete CA certificate. -/
def exCACert : Certificate :=
  { subjectCommonName := "kubernetes-ca", dnsNames := [], extKeyUsage := [],
    issuerCommonName := "kubernetes-ca" }

/-- A complete, well-formed PKI bundle. -/
def exCAConfigOK : Configuration :=
  { kubernetesPKI := [(KubernetesCACertPath, .certs [exCACert]),
                      (KubernetesCAKeyPath, .key (.rsa 7))] }

/-- PKI bundle missing the CA-certificate entry. -/
def exCAConfigNoCert : Configuration :=
  { kubernetesPKI := [(KubernetesCAKeyPath, .key (.rsa 7))] }

/-- PKI bundle missing the CA-key entry. -/
def exCAConfigNoKey : Configuration :=
  { kubernetesPKI := [(KubernetesCACertPath, .certs [exCACert])] }

/-- PKI bundle whose certificate entry is malformed PEM. -/
def exCAConfigMalformed : Configuration :=
  { kubernetesPKI := [(KubernetesCACertPath, .malformed),
                      (KubernetesCAKeyPath, .key (.rsa 7))] }

/-- PKI bundle whose certificate entry decodes to zero certificates. -/
def exCAConfigEmptyCerts : Configuration :=
  { kubernetesPKI := [(KubernetesCACertPath, .certs []),
                      (KubernetesCAKeyPath, .key (.rsa 7))] }

/-- PKI bundle whose key entry parses as an ECDSA key. -/
def exCAConfigECKey : Configuration :=
  { kubernetesPKI := [(KubernetesCACertPath, .certs [exCACert]),
                      (KubernetesCAKeyPath, .key (.ecdsa 9))] }

/-- An empty worker-pool provider block. -/
def emptyProviderSpec : ProviderSpec :=
  { cloudProviderSpec := none, labels := [], taints := [], annotations := [],
    machineAnnotations := [], network := none }

/-- A pool declaring a static network configuration. -/
def exStaticNetPool : DynamicWorkerConfig :=
  { name := "pool-static", replicas := some 3,
    config := { emptyProviderSpec with
      cloudProviderSpec := some (.obj [("flavor", .str "m1.small")])
      network := some { cidr := "192.168.1.0/24", gateway := "192.168.1.1",
                        dns := ["8.8.8.8"] } } }

/-- A pool without a static network configuration. -/
def exDynamicPool : DynamicWorkerConfig :=
  { name := "pool-dynamic", replicas := some 3,
    config := { emptyProviderSpec with
      cloudProviderSpec := some (.obj [("flavor", .str "m1.small")]) } }

/-- A pool whose replica count is unset. -/
def exNilReplicasPool : DynamicWorkerConfig :=
  { name := "pool-nil", replicas := none,
    config := { emptyProviderSpec with cloudProviderSpec := some (.obj []) } }

/-- An AWS cluster used for tag-injection checks. -/
def exAWSTagCluster : KubeOneCluster :=
  { emptyCluster with
    name := "tagged"
    cloudProvider := { emptyCloudProvider with aws := some .mk }
    controlPlane := ⟨[{ emptyHost with publicAddress := "10.0.0.1" }]⟩ }

/-- An AWS pool whose payload carries an existing tag map. -/
def exAWSPool : DynamicWorkerConfig :=
  { name := "pool-aws", replicas := some 2,
    config := { emptyProviderSpec with
      cloudProviderSpec := some (.obj [("tags", .obj [("team", .str "dev")])]) } }

/-- A placeholder descriptor (never produced by the generator). -/
def dummyMD : MachineDeployment :=
  { name := "", namespaceName := "", annotations := [], paused := false, replicas := 0,
    selectorMatchLabels := [], strategyType := "", maxSurge := 0, maxUnavailable := 0,
    minReadySeconds := 0, templateLabels := [], kubeletVersion := "",
    providerSpecConfig := emptyProviderSpec, providerSpecCloudProvider := "", taints := [] }

/-- The generated descriptor of a successful run (placeholder on failure). -/
def mdOf (r : Except GenError MachineDeployment) : MachineDeployment :=
  match r with
  | .ok m => m
  | .error _ => dummyMD

/-! ## Lemmas: the string/integer defaulting primitives -/

theorem defaults_idem (i d : String) : defaults (defaults i d) d = defaults i d := by
  by_cases hi : i = "" <;> by_cases hd : d = "" <;> simp [defaults, hi, hd]

theorem defaulti_idem (i d : Int) : defaulti (defaulti i d) d = defaulti i d := by
  by_cases hi : i = 0 <;> by_cases hd : d = 0 <;> simp [defaulti, hi, hd]

theorem pubAfter_idem (p q : String) :
    pubAfter (pubAfter p q) (privAfter p q) = pubAfter p q := by
  by_cases hp : p.length = 0 <;> by_cases hq : q.length = 0 <;>
    simp [pubAfter, privAfter, hp, hq, Nat.pos_iff_ne_zero]

theorem privAfter_idem (p q : String) :
    privAfter (pubAfter p q) (privAfter p q) = privAfter p q := by
  by_cases hp : p.length = 0 <;> by_cases hq : q.length = 0 <;>
    simp [pubAfter, privAfter, hp, hq, Nat.pos_iff_ne_zero]

theorem sockAfter_idem (k s : String) : sockAfter k (sockAfter k s) = sockAfter k s := by
  by_cases hk : k = "" <;> simp [sockAfter, hk, defaults_idem]

set_option maxHeartbeats 1000000 in
theorem defaultHostConfig_eq (h : HostConfig) : defaultHostConfig h =
    { h with
      publicAddress := pubAfter h.publicAddress h.privateAddress
      privateAddress := privAfter h.publicAddress h.privateAddress
      sshAgentSocket := sockAfter h.sshPrivateKeyFile h.sshAgentSocket
      sshUsername := defaults h.sshUsername "root"
      sshPort := defaulti h.sshPort 22
      bastionPort := defaulti h.bastionPort 22
      bastionUser := defaults h.bastionUser (defaults h.sshUsername "root") } := by
  cases h
  simp only [defaultHostConfig, pubAfter, privAfter, sockAfter]
  split_ifs <;> rfl

/-! ## Lemmas: per-host defaulting -/

theorem defaultControlPlaneHost_mk (idx : Nat) (pub priv : String) (sp : Int)
    (su skf sas b : String) (bp : Int) (bu hn : String) (i : Int) (lead : Bool)
    (t : Option (List Taint)) :
    defaultControlPlaneHost idx ⟨pub, priv, sp, su, skf, sas, b, bp, bu, hn, i, lead, t⟩ =
      ⟨pubAfter pub priv, privAfter pub priv, defaulti sp 22, defaults su "root", skf,
       sockAfter skf sas, b, defaulti bp 22, defaults bu (defaults su "root"), hn,
       (idx : Int), lead, cpTaintsAfter t⟩ := by
  rcases t with _ | l <;>
    simp [defaultControlPlaneHost, defaultHostConfig_eq, cpTaintsAfter, pubAfter, privAfter,
      sockAfter]

theorem defaultStaticWorkerHost_mk (idx : Nat) (pub priv : String) (sp : Int)
    (su skf sas b : String) (bp : Int) (bu hn : String) (i : Int) (lead : Bool)
    (t : Option (List Taint)) :
    defaultStaticWorkerHost idx ⟨pub, priv, sp, su, skf, sas, b, bp, bu, hn, i, lead, t⟩ =
      ⟨pubAfter pub priv, privAfter pub priv, defaulti sp 22, defaults su "root", skf,
       sockAfter skf sas, b, defaulti bp 22, defaults bu (defaults su "root"), hn,
       (idx : Int), lead, swTaintsAfter t⟩ := by
  rcases t with _ | l <;>
    simp [defaultStaticWorkerHost, defaultHostConfig_eq, swTaintsAfter, pubAfter, privAfter,
      sockAfter]

theorem cpTaintsAfter_idem (t : Option (List Taint)) :
    cpTaintsAfter (cpTaintsAfter t) = cpTaintsAfter t := by
  rcases t with _ | l <;> rfl

theorem swTaintsAfter_idem (t : Option (List Taint)) :
    swTaintsAfter (swTaintsAfter t) = swTaintsAfter t := by
  rcases t with _ | l <;> rfl

theorem defaultControlPlaneHost_idem (idx : Nat) (h : HostConfig) :
    defaultControlPlaneHost idx (defaultControlPlaneHost idx h) =
      defaultControlPlaneHost idx h := by
  cases h
  simp only [defaultControlPlaneHost_mk, pubAfter_idem, privAfter_idem, sockAfter_idem,
    defaulti_idem, defaults_idem, cpTaintsAfter_idem]

theorem defaultStaticWorkerHost_idem (idx : Nat) (h : HostConfig) :
    defaultStaticWorkerHost idx (defaultStaticWorkerHost idx h) =
      defaultStaticWorkerHost idx h := by
  cases h
  simp only [defaultStaticWorkerHost_mk, pubAfter_idem, privAfter_idem, sockAfter_idem,
    defaulti_idem, defaults_idem, swTaintsAfter_idem]

theorem defaultControlPlaneHost_isLeader (idx : Nat) (h : HostConfig) :
    (defaultControlPlaneHost idx h).isLeader = h.isLeader := by
  cases h; simp only [defaultControlPlaneHost_mk]

theorem defaultControlPlaneHost_id (idx : Nat) (h : HostConfig) :
    (defaultControlPlaneHost idx h).id = (idx : Int) := by
  cases h; simp only [defaultControlPlaneHost_mk]

theorem defaultStaticWorkerHost_id (idx : Nat) (h : HostConfig) :
    (defaultStaticWorkerHost idx h).id = (idx : Int) := by
  cases h; simp only [defaultStaticWorkerHost_mk]

/-! ## Lemmas: the host-list loops -/

theorem assignCP_idem (n : Nat) (l : List HostConfig) :
    assignCP n (assignCP n l) = assignCP n l := by
  induction l generalizing n with
  | nil => rfl
  | cons h t ih => simp [assignCP, defaultControlPlaneHost_idem, ih]

theorem assignSW_idem (n : Nat) (l : List HostConfig) :
    assignSW n (assignSW n l) = assignSW n l := by
  induction l generalizing n with
  | nil => rfl
  | cons h t ih => simp [assignSW, defaultStaticWorkerHost_idem, ih]

theorem assignCP_length (n : Nat) (l : List HostConfig) :
    (assignCP n l).length = l.length := by
  induction l generalizing n with
  | nil => rfl
  | cons h t ih => simp [assignCP, ih]

theorem assignSW_length (n : Nat) (l : List HostConfig) :
    (assignSW n l).length = l.length := by
  induction l generalizing n with
  | nil => rfl
  | cons h t ih => simp [assignSW, ih]

theorem assignCP_map_isLeader (n : Nat) (l : List HostConfig) :
    (assignCP n l).map (·.isLeader) = l.map (·.isLeader) := by
  induction l generalizing n with
  | nil => rfl
  | cons h t ih => simp [assignCP, defaultControlPlaneHost_isLeader, ih]

theorem assignCP_any_isLeader (n : Nat) (l : List HostConfig) :
    (assignCP n l).any (·.isLeader) = l.any (·.isLeader) := by
  induction l generalizing n with
  | nil => rfl
  | cons h t ih => simp [assignCP, defaultControlPlaneHost_isLeader, ih, List.any_cons]

theorem assignCP_countP_isLeader (n : Nat) (l : List HostConfig) :
    (assignCP n l).countP (·.isLeader) = l.countP (·.isLeader) := by
  induction l generalizing n with
  | nil => rfl
  | cons h t ih => simp [assignCP, List.countP_cons, defaultControlPlaneHost_isLeader, ih]

theorem setFirstLeader_length (l : List HostConfig) :
    (setFirstLeader l).length = l.length := by
  cases l <;> simp [setFirstLeader]

theorem setFirstLeader_map_id (l : List HostConfig) :
    (setFirstLeader l).map (·.id) = l.map (·.id) := by
  cases l <;> simp [setFirstLeader]

theorem setFirstLeader_any_isLeader (h : HostConfig) (t : List HostConfig) :
    (setFirstLeader (h :: t)).any (·.isLeader) = true := by
  simp [setFirstLeader]

theorem defaultedCPHosts_cons (h : HostConfig) (t : List HostConfig) :
    defaultedCPHosts (h :: t) =
      if (h :: t).any (·.isLeader) then assignCP 0 (h :: t)
      else setFirstLeader (assignCP 0 (h :: t)) := by
  by_cases hany : (h :: t).any (·.isLeader) <;> simp [defaultedCPHosts, hany]

theorem assignCP_setFirstLeader (n : Nat) (l : List HostConfig) :
    assignCP n (setFirstLeader (assignCP n l)) = setFirstLeader (assignCP n l) := by
  cases l with
  | nil => rfl
  | cons h t =>
    cases h
    simp only [assignCP, setFirstLeader, defaultControlPlaneHost_mk]
    simp [pubAfter_idem, privAfter_idem, sockAfter_idem, defaulti_idem, defaults_idem,
      cpTaintsAfter_idem, assignCP_idem, defaultControlPlaneHost_mk]

theorem defaultedCPHosts_idem (l : List HostConfig) :
    defaultedCPHosts (defaultedCPHosts l) = defaultedCPHosts l := by
  cases l with
  | nil => rfl
  | cons h t =>
    rw [defaultedCPHosts_cons]
    have hc : assignCP 0 (h :: t) = defaultControlPlaneHost 0 h :: assignCP 1 t := rfl
    by_cases hany : (h :: t).any (·.isLeader)
    · rw [if_pos hany, hc, defaultedCPHosts_cons]
      have hany' : (defaultControlPlaneHost 0 h :: assignCP 1 t).any (·.isLeader) = true := by
        rw [← hc, assignCP_any_isLeader]; exact hany
      rw [if_pos hany', ← hc, assignCP_idem]
    · rw [if_neg hany]
      have hs : setFirstLeader (assignCP 0 (h :: t)) =
          { defaultControlPlaneHost 0 h with isLeader := true } :: assignCP 1 t := rfl
      rw [hs, defaultedCPHosts_cons]
      have hany' : ({ defaultControlPlaneHost 0 h with isLeader := true } :: assignCP 1 t).any
          (·.isLeader) = true := by simp
      rw [if_pos hany', ← hs, assignCP_setFirstLeader]

theorem defaultedCPHosts_length (l : List HostConfig) :
    (defaultedCPHosts l).length = l.length := by
  cases l with
  | nil => rfl
  | cons h t =>
    rw [defaultedCPHosts_cons]
    by_cases hany : (h :: t).any (·.isLeader)
    · rw [if_pos hany, assignCP_length]
    · rw [if_neg hany, setFirstLeader_length, assignCP_length]

theorem defaultedSWHosts_idem (cp sw : List HostConfig) :
    defaultedSWHosts (defaultedCPHosts cp) (defaultedSWHosts cp sw) =
      defaultedSWHosts cp sw := by
  cases cp with
  | nil => rfl
  | cons h t =>
    have h1 : defaultedCPHosts (h :: t) ≠ [] := by
      apply List.ne_nil_of_length_pos
      rw [defaultedCPHosts_length]
      simp
    have h2 : ∀ l : List HostConfig, l ≠ [] → ∀ w, defaultedSWHosts l w = assignSW l.length w := by
      intro l hl w
      cases l with
      | nil => exact absurd rfl hl
      | cons a b => rfl
    rw [h2 _ h1, defaultedCPHosts_length]
    show assignSW (h :: t).length (assignSW (h :: t).length sw) = _
    rw [assignSW_idem]
    exact (h2 _ (List.cons_ne_nil h t) sw).symm

/-! ## Lemmas: idempotence of each normalizer component -/

theorem apiEndpointAfter_idem (l : List HostConfig) (ep : APIEndpoint) :
    apiEndpointAfter l (apiEndpointAfter l ep) = apiEndpointAfter l ep := by
  by_cases he : ep.host.length = 0
  · cases l with
    | nil => simp [apiEndpointAfter, he]
    | cons h0 t =>
      by_cases hp : h0.publicAddress.length = 0 <;>
        simp [apiEndpointAfter, he, hp, defaulti_idem]
  · simp [apiEndpointAfter, he, defaulti_idem]

theorem goTrimLeadingV_no_v (s : String) (h : s.data.head? ≠ some 'v') :
    goTrimLeadingV s = s := by
  unfold goTrimLeadingV
  split
  · rename_i rest heq
    exact absurd (by rw [heq]; rfl) h
  · rfl

theorem versionsAfter_idem (v : VersionConfig)
    (h : (goTrimLeadingV v.kubernetes).data.head? ≠ some 'v') :
    versionsAfter (versionsAfter v) = versionsAfter v := by
  simp only [versionsAfter]
  rw [goTrimLeadingV_no_v _ h]

theorem containerRuntimeAfter_idem (ver : String) (cr : ContainerRuntimeConfig) :
    containerRuntimeAfter ver (containerRuntimeAfter ver cr) =
      containerRuntimeAfter ver cr := by
  rcases cr with ⟨d, c⟩
  rcases d with _ | d0
  · rcases c with _ | c0
    · simp only [containerRuntimeAfter]
      rcases hsv : semverNewVersion ver with _ | v0
      · simp [hsv]
      · by_cases hg : gteKube122 v0 <;> simp [hsv, hg]
    · simp [containerRuntimeAfter]
  · simp [containerRuntimeAfter]

theorem cniAfter_idem (dmtu : Int) (cni0 : Option CNI) :
    cniAfter dmtu (cniAfter dmtu cni0) = cniAfter dmtu cni0 := by
  rcases cni0 with _ | ⟨ca, ci⟩
  · by_cases hz : dmtu = 0 <;> simp [cniAfter, hz]
  · rcases ca with _ | ⟨⟨mtu⟩⟩ <;> rcases ci with _ | ⟨⟨kpr⟩⟩
    · simp [cniAfter]
    · by_cases hk : kpr = "" <;> simp [cniAfter, hk]
    · by_cases hm : mtu = 0 <;> by_cases hz : dmtu = 0 <;> simp [cniAfter, hm, hz]
    · by_cases hm : mtu = 0 <;> by_cases hz : dmtu = 0 <;> by_cases hk : kpr = "" <;>
        simp [cniAfter, hm, hz, hk]

theorem clusterNetworkAfter_idem (p : CloudProviderSpec) (cn : ClusterNetworkConfig) :
    clusterNetworkAfter p (clusterNetworkAfter p cn) = clusterNetworkAfter p cn := by
  simp only [clusterNetworkAfter, defaults_idem, cniAfter_idem]

theorem proxyAfter_skip (cn : ClusterNetworkConfig) (p : ProxyConfig)
    (h1 : p.http = "") (h2 : p.https = "") : proxyAfter cn p = p := by
  simp [proxyAfter, h1, h2]

theorem machineControllerAfter_idem (mc : Option MachineControllerConfig) :
    machineControllerAfter (machineControllerAfter mc) = machineControllerAfter mc := by
  rcases mc with _ | c <;> rfl

theorem systemPackagesAfter_idem (sp : Option SystemPackages) :
    systemPackagesAfter (systemPackagesAfter sp) = systemPackagesAfter sp := by
  rcases sp with _ | c <;> rfl

theorem assetConfigurationAfter_idem (reg : Option RegistryConfiguration)
    (ac : AssetConfiguration) :
    assetConfigurationAfter reg (assetConfigurationAfter reg ac) =
      assetConfigurationAfter reg ac := by
  rcases reg with _ | r
  · rfl
  · by_cases hr : r.overwriteRegistry = "" <;>
      simp [assetConfigurationAfter, hr, defaults_idem]

theorem defaultStaticAuditLogConfig_idem (c : StaticAuditLogConfig) :
    defaultStaticAuditLogConfig (defaultStaticAuditLogConfig c) =
      defaultStaticAuditLogConfig c := by
  simp only [defaultStaticAuditLogConfig, defaults_idem, defaulti_idem]

theorem defaultOpenIDConnect_idem (c : OpenIDConnectConfig) :
    defaultOpenIDConnect (defaultOpenIDConnect c) = defaultOpenIDConnect c := by
  simp only [defaultOpenIDConnect, defaults_idem]

theorem metricsServerAfter_idem (ms : Option MetricsServer) :
    metricsServerAfter (metricsServerAfter ms) = metricsServerAfter ms := by
  rcases ms with _ | c <;> rfl

theorem staticAuditLogAfter_idem (sal : Option StaticAuditLog) :
    staticAuditLogAfter (staticAuditLogAfter sal) = staticAuditLogAfter sal := by
  rcases sal with _ | s
  · rfl
  · by_cases he : s.enable <;> simp [staticAuditLogAfter, he, defaultStaticAuditLogConfig_idem]

theorem openidConnectAfter_idem (oidc : Option OpenIDConnect) :
    openidConnectAfter (openidConnectAfter oidc) = openidConnectAfter oidc := by
  rcases oidc with _ | o
  · rfl
  · by_cases he : o.enable <;> simp [openidConnectAfter, he, defaultOpenIDConnect_idem]

theorem featuresAfter_idem (f : Features) : featuresAfter (featuresAfter f) = featuresAfter f := by
  simp only [featuresAfter, metricsServerAfter_idem, staticAuditLogAfter_idem,
    openidConnectAfter_idem]

theorem addonsAfter_idem (a : Option Addons) : addonsAfter (addonsAfter a) = addonsAfter a := by
  rcases a with _ | ad
  · rfl
  · by_cases he : ad.enable <;> simp [addonsAfter, he, defaults_idem]

/-! ## Lemmas: projections of the normalized specification -/

theorem normalize_controlPlane (obj : KubeOneCluster) :
    (SetDefaults_KubeOneCluster obj).controlPlane.hosts =
      defaultedCPHosts obj.controlPlane.hosts := rfl

theorem normalize_staticWorkers (obj : KubeOneCluster) :
    (SetDefaults_KubeOneCluster obj).staticWorkers.hosts =
      defaultedSWHosts obj.controlPlane.hosts obj.staticWorkers.hosts := rfl

/-! ## Lemmas: host IDs and leader flags -/

theorem assignCP_map_id (n : Nat) (l : List HostConfig) :
    (assignCP n l).map (·.id) = idsFrom n l.length := by
  induction l generalizing n with
  | nil => rfl
  | cons h t ih => simp [assignCP, idsFrom, defaultControlPlaneHost_id, ih]

theorem assignSW_map_id (n : Nat) (l : List HostConfig) :
    (assignSW n l).map (·.id) = idsFrom n l.length := by
  induction l generalizing n with
  | nil => rfl
  | cons h t ih => simp [assignSW, idsFrom, defaultStaticWorkerHost_id, ih]

theorem idsFrom_add (a : Nat) : ∀ (n b : Nat),
    idsFrom n (a + b) = idsFrom n a ++ idsFrom (n + a) b := by
  induction a with
  | zero => intro n b; simp [idsFrom]
  | succ a ih =>
    intro n b
    have : a + 1 + b = (a + b) + 1 := by omega
    rw [this]
    show (n : Int) :: idsFrom (n + 1) (a + b) = ((n : Int) :: idsFrom (n + 1) a) ++ _
    rw [ih (n + 1) b, List.cons_append]
    have : n + 1 + a = n + (a + 1) := by omega
    rw [this]

theorem idsFrom_eq_range (len : Nat) : ∀ n : Nat,
    idsFrom n len = (List.range len).map (fun k => ((n + k : Nat) : Int)) := by
  induction len with
  | zero => intro n; rfl
  | succ len ih =>
    intro n
    rw [List.range_succ_eq_map]
    show (n : Int) :: idsFrom (n + 1) len = _
    rw [ih (n + 1)]
    simp only [List.map_cons, List.map_map]
    have h0 : ((n + 0 : Nat) : Int) = (n : Int) := by norm_num
    have hf : ((fun k => ((n + k : Nat) : Int)) ∘ Nat.succ) =
        fun k => (((n + 1) + k : Nat) : Int) := by
      funext k
      simp only [Function.comp]
      congr 1
      omega
    rw [h0, hf]

theorem idsFrom_zero_eq_range (len : Nat) :
    idsFrom 0 len = (List.range len).map (fun k : Nat => (k : Int)) := by
  rw [idsFrom_eq_range]
  have hfun : (fun k : Nat => ((0 + k : Nat) : Int)) = (fun k : Nat => (k : Int)) := by
    funext k
    norm_num
  rw [hfun]

theorem defaultedCPHosts_map_id (l : List HostConfig) :
    (defaultedCPHosts l).map (·.id) = idsFrom 0 l.length := by
  cases l with
  | nil => rfl
  | cons h t =>
    rw [defaultedCPHosts_cons]
    by_cases hany : (h :: t).any (·.isLeader)
    · rw [if_pos hany, assignCP_map_id]
    · rw [if_neg hany, setFirstLeader_map_id, assignCP_map_id]

theorem defaultedCPHosts_of_no_leader (h : HostConfig) (t : List HostConfig)
    (h0 : (h :: t).countP (·.isLeader) = 0) :
    (defaultedCPHosts (h :: t)).countP (·.isLeader) = 1 ∧
      (defaultedCPHosts (h :: t)).head?.map (·.isLeader) = some true := by
  have hall : ∀ a ∈ (h :: t), ¬((·.isLeader) a = true) := List.countP_eq_zero.mp h0
  have hany : ¬((h :: t).any (·.isLeader) = true) := by
    rw [List.any_eq_true]
    rintro ⟨x, hx, hl⟩
    exact hall x hx hl
  rw [defaultedCPHosts_cons, if_neg hany]
  have hA : assignCP 0 (h :: t) = defaultControlPlaneHost 0 h :: assignCP 1 t := rfl
  have ht0 : t.countP (·.isLeader) = 0 := by
    rw [List.countP_cons] at h0
    omega
  constructor
  · rw [hA]
    show (({ defaultControlPlaneHost 0 h with isLeader := true } : HostConfig) ::
        assignCP 1 t).countP (·.isLeader) = 1
    rw [List.countP_cons, assignCP_countP_isLeader, ht0]
    simp
  · rw [hA]
    rfl

theorem defaultedCPHosts_of_explicit_leader (l : List HostConfig)
    (h1 : 0 < l.countP (·.isLeader)) :
    (defaultedCPHosts l).map (·.isLeader) = l.map (·.isLeader) ∧
      (defaultedCPHosts l).countP (·.isLeader) = l.countP (·.isLeader) := by
  cases l with
  | nil => simp at h1
  | cons h t =>
    have hany : (h :: t).any (·.isLeader) = true :=
      List.any_eq_true.mpr (List.countP_pos_iff.mp h1)
    rw [defaultedCPHosts_cons, if_pos hany]
    exact ⟨assignCP_map_isLeader 0 (h :: t), assignCP_countP_isLeader 0 (h :: t)⟩

/-! ## Lemmas: association-list maps and the AWS tag payload -/

theorem mapLookup_mapSet_self {α : Type} (m : List (String × α)) (k : String) (v : α) :
    mapLookup (mapSet m k v) k = some v := by
  induction m with
  | nil => simp [mapSet, mapLookup]
  | cons e t ih =>
    by_cases he : e.1 = k <;> simp [mapSet, mapLookup, he, ih]

theorem mapLookup_mapSet_ne {α : Type} (m : List (String × α)) (k : String) (v : α)
    (k' : String) (h : k' ≠ k) : mapLookup (mapSet m k v) k' = mapLookup m k' := by
  induction m with
  | nil =>
    show mapLookup [(k, v)] k' = mapLookup [] k'
    simp only [mapLookup, if_neg (Ne.symm h)]
  | cons e t ih =>
    by_cases he : e.1 = k
    · simp only [mapSet, if_pos he, mapLookup, he, if_neg (Ne.symm h)]
    · simp only [mapSet, if_neg he, mapLookup, ih]

theorem countKey_mapSet_self {α : Type} (m : List (String × α)) (k : String) (v : α)
    (h : countKey m k ≤ 1) : countKey (mapSet m k v) k = 1 := by
  induction m with
  | nil => simp [mapSet, countKey]
  | cons e t ih =>
    by_cases he : e.1 = k
    · simp only [countKey, if_pos he] at h
      have ht0 : countKey t k = 0 := by omega
      simp only [mapSet, if_pos he, countKey, if_pos he, ht0]
    · simp only [countKey, if_neg he] at h
      have ihh := ih (by omega)
      simp only [mapSet, if_neg he, countKey, if_neg he, ihh]

theorem countKey_mapSet_ne {α : Type} (m : List (String × α)) (k : String) (v : α)
    (k' : String) (h : k' ≠ k) : countKey (mapSet m k v) k' = countKey m k' := by
  induction m with
  | nil =>
    show countKey [(k, v)] k' = countKey [] k'
    simp only [countKey, if_neg (Ne.symm h)]
  | cons e t ih =>
    by_cases he : e.1 = k
    · simp only [mapSet, if_pos he, countKey, he, if_neg (Ne.symm h)]
    · simp only [mapSet, if_neg he, countKey, ih]

theorem decodeStringMapFields_countKey_le (fields : List (String × JsonValue)) :
    ∀ (acc out : List (String × String)), (∀ k, countKey acc k ≤ 1) →
      decodeStringMapFields fields acc = some out → ∀ k, countKey out k ≤ 1 := by
  induction fields with
  | nil =>
    intro acc out hacc hout k
    simp only [decodeStringMapFields, Option.some.injEq] at hout
    subst hout
    exact hacc k
  | cons e t ih =>
    intro acc out hacc hout k
    rcases e with ⟨ek, ev⟩
    cases ev with
    | str s =>
      simp only [decodeStringMapFields] at hout
      refine ih (mapSet acc ek s) out (fun k' => ?_) hout k
      by_cases hk : k' = ek
      · rw [hk, countKey_mapSet_self _ _ _ (hacc ek)]
      · rw [countKey_mapSet_ne _ _ _ _ hk]
        exact hacc k'
    | null => simp [decodeStringMapFields] at hout
    | bool b => simp [decodeStringMapFields] at hout
    | num n => simp [decodeStringMapFields] at hout
    | arr l => simp [decodeStringMapFields] at hout
    | obj l => simp [decodeStringMapFields] at hout

theorem filterMap_decode_encode (m : List (String × String)) :
    (m.map strEntryEncode).filterMap strEntryDecode = m := by
  induction m with
  | nil => rfl
  | cons e t ih => simp [strEntryEncode, strEntryDecode, List.filterMap_cons, ih]

theorem filterMap_decode_encode_comp (m : List (String × String)) :
    m.filterMap (strEntryDecode ∘ strEntryEncode) = m := by
  induction m with
  | nil => rfl
  | cons e t ih =>
    simp [strEntryEncode, strEntryDecode, Function.comp, List.filterMap_cons, ih]

theorem unmarshalAWSSpec_countKey_le (j : JsonValue) (m : List (String × String))
    (h : unmarshalAWSSpec j = .ok { tags := some m }) : ∀ k, countKey m k ≤ 1 := by
  cases j with
  | obj fields =>
    simp only [unmarshalAWSSpec] at h
    rcases hl : mapLookup fields "tags" with _ | tv
    · rw [hl] at h
      simp at h
    · rw [hl] at h
      cases tv with
      | obj tagFields =>
        have h' : (match decodeStringMapFields tagFields [] with
            | some m1 => (Except.ok { tags := some m1 } : Except GenError AWSSpec)
            | none => Except.error GenError.awsSpecParseError) =
            Except.ok { tags := some m } := h
        rcases hd : decodeStringMapFields tagFields [] with _ | m0
        · rw [hd] at h'; simp at h'
        · rw [hd] at h'
          simp only [Except.ok.injEq, AWSSpec.mk.injEq, Option.some.injEq] at h'
          subst h'
          exact decodeStringMapFields_countKey_le tagFields [] m0
            (fun k => by simp [countKey]) hd
      | null => simp at h
      | bool b => simp at h
      | num n => simp at h
      | str s => simp at h
      | arr l => simp at h
  | null => simp [unmarshalAWSSpec] at h
  | bool b => simp [unmarshalAWSSpec] at h
  | num n => simp [unmarshalAWSSpec] at h
  | str s => simp [unmarshalAWSSpec] at h
  | arr l => simp [unmarshalAWSSpec] at h

/-! ## Claims -/

/-- Claim C1, counterexample: normalization is not idempotent when an HTTP
proxy is configured — re-normalizing `exProxyCluster` (a valid spec with
`Proxy.HTTP` set) changes it again, because `SetDefaults_Proxy` re-appends the
static no-proxy list to the already-built `NoProxy` value. -/
theorem normalize_not_idempotent_with_proxy :
    SetDefaults_KubeOneCluster (SetDefaults_KubeOneCluster exProxyCluster) ≠
      SetDefaults_KubeOneCluster exProxyCluster := by decide

/-- Claim C1, amended: normalization is idempotent for every cluster
specification with no HTTP and no HTTPS proxy configured whose Kubernetes
version does not begin with a doubled `v` prefix (i.e. after one `v` is
stripped the version no longer starts with `v`; `TrimPrefix` removes one
occurrence per pass). -/
theorem normalize_idempotent_without_proxy (obj : KubeOneCluster)
    (h1 : obj.proxy.http = "") (h2 : obj.proxy.https = "")
    (h3 : (goTrimLeadingV obj.versions.kubernetes).data.head? ≠ some 'v') :
    SetDefaults_KubeOneCluster (SetDefaults_KubeOneCluster obj) =
      SetDefaults_KubeOneCluster obj := by
  have hv := versionsAfter_idem obj.versions h3
  have hp : ∀ cn, proxyAfter cn obj.proxy = obj.proxy := fun cn =>
    proxyAfter_skip cn obj.proxy h1 h2
  simp only [SetDefaults_KubeOneCluster, SetDefaults_Hosts, SetDefaults_APIEndpoints,
    SetDefaults_Versions, SetDefaults_ContainerRuntime, SetDefaults_ClusterNetwork,
    SetDefaults_Proxy, SetDefaults_MachineController, SetDefaults_SystemPackages,
    SetDefaults_AssetConfiguration, SetDefaults_Features, SetDefaults_Addons]
  simp only [hp, hv, defaultedCPHosts_idem, defaultedSWHosts_idem, apiEndpointAfter_idem,
    containerRuntimeAfter_idem, clusterNetworkAfter_idem, machineControllerAfter_idem,
    systemPackagesAfter_idem, assetConfigurationAfter_idem, featuresAfter_idem, addonsAfter_idem]

/-- Witness for the amended claim C1 at a concrete proxy-free specification. -/
theorem normalize_idempotent_without_proxy_witness :
    SetDefaults_KubeOneCluster (SetDefaults_KubeOneCluster exPlainCluster) =
      SetDefaults_KubeOneCluster exPlainCluster :=
  normalize_idempotent_without_proxy exPlainCluster rfl rfl (by decide)

/-- Claim C2: for a non-empty control-plane host list, after normalization
exactly one host is marked leader — if no host carried the flag, the first
control-plane host gets it; if exactly one host carried it, the flag pattern
is preserved (that host keeps it and no other host is promoted). -/
theorem normalize_exactly_one_leader (obj : KubeOneCluster)
    (hne : obj.controlPlane.hosts ≠ []) :
    (obj.controlPlane.hosts.countP (·.isLeader) = 0 →
      (SetDefaults_KubeOneCluster obj).controlPlane.hosts.countP (·.isLeader) = 1 ∧
      ((SetDefaults_KubeOneCluster obj).controlPlane.hosts.head?.map (·.isLeader)) = some true) ∧
    (obj.controlPlane.hosts.countP (·.isLeader) = 1 →
      (SetDefaults_KubeOneCluster obj).controlPlane.hosts.countP (·.isLeader) = 1 ∧
      (SetDefaults_KubeOneCluster obj).controlPlane.hosts.map (·.isLeader) =
        obj.controlPlane.hosts.map (·.isLeader)) := by
  constructor
  · intro h0
    rw [normalize_controlPlane]
    rcases hcp : obj.controlPlane.hosts with _ | ⟨h, t⟩
    · exact absurd hcp hne
    · rw [hcp] at h0
      exact defaultedCPHosts_of_no_leader h t h0
  · intro h1
    rw [normalize_controlPlane]
    have hpos : 0 < obj.controlPlane.hosts.countP (·.isLeader) := by omega
    have hres := defaultedCPHosts_of_explicit_leader obj.controlPlane.hosts hpos
    refine ⟨?_, hres.1⟩
    rw [hres.2, h1]

/-- Witness for claim C2: the no-explicit-leader scenario and the
one-explicit-leader scenario at concrete two-host specifications. -/
theorem normalize_exactly_one_leader_witness :
    (((SetDefaults_KubeOneCluster exTwoHostCluster).controlPlane.hosts.countP (·.isLeader) = 1 ∧
      ((SetDefaults_KubeOneCluster exTwoHostCluster).controlPlane.hosts.head?.map (·.isLeader)) =
        some true)) ∧
    (((SetDefaults_KubeOneCluster exLeaderCluster).controlPlane.hosts.countP (·.isLeader) = 1 ∧
      (SetDefaults_KubeOneCluster exLeaderCluster).controlPlane.hosts.map (·.isLeader) =
        exLeaderCluster.controlPlane.hosts.map (·.isLeader))) :=
  ⟨(normalize_exactly_one_leader exTwoHostCluster (by decide)).1 (by decide),
   (normalize_exactly_one_leader exLeaderCluster (by decide)).2 (by decide)⟩

/-- Claim C3, counterexample: with an empty control-plane host list,
`SetDefaults_Hosts` returns early and never renumbers the static workers, so
a worker keeping its stale ID 7 breaks the claimed contiguous 0-based
sequence. -/
theorem normalize_host_ids_gap_without_control_plane :
    ((SetDefaults_KubeOneCluster exNoCPCluster).controlPlane.hosts ++
        (SetDefaults_KubeOneCluster exNoCPCluster).staticWorkers.hosts).map (·.id) ≠
      (List.range (exNoCPCluster.controlPlane.hosts.length +
        exNoCPCluster.staticWorkers.hosts.length)).map (fun k : Nat => (k : Int)) := by
  decide

/-- Claim C3, amended: for every cluster specification with at least one
control-plane host, the IDs of all hosts after normalization — control-plane
hosts first, then static workers — form the contiguous 0-based sequence
`0, 1, ...`. -/
theorem normalize_host_ids_contiguous (obj : KubeOneCluster)
    (hne : obj.controlPlane.hosts ≠ []) :
    ((SetDefaults_KubeOneCluster obj).controlPlane.hosts ++
        (SetDefaults_KubeOneCluster obj).staticWorkers.hosts).map (·.id) =
      (List.range (obj.controlPlane.hosts.length + obj.staticWorkers.hosts.length)).map
        (fun k : Nat => (k : Int)) := by
  rw [List.map_append, normalize_controlPlane, normalize_staticWorkers]
  rcases hcp : obj.controlPlane.hosts with _ | ⟨h, t⟩
  · exact absurd hcp hne
  · rw [defaultedCPHosts_map_id]
    have hsw : defaultedSWHosts (h :: t) obj.staticWorkers.hosts =
        assignSW (h :: t).length obj.staticWorkers.hosts := rfl
    rw [hsw, assignSW_map_id]
    have hadd := idsFrom_add (h :: t).length 0 obj.staticWorkers.hosts.length
    simp only [Nat.zero_add] at hadd
    rw [← hadd, idsFrom_zero_eq_range]

/-- Witness for the amended claim C3 at a two-control-plane, one-worker
specification. -/
theorem normalize_host_ids_contiguous_witness :
    ((SetDefaults_KubeOneCluster exWorkersCluster).controlPlane.hosts ++
        (SetDefaults_KubeOneCluster exWorkersCluster).staticWorkers.hosts).map (·.id) =
      (List.range (exWorkersCluster.controlPlane.hosts.length +
        exWorkersCluster.staticWorkers.hosts.length)).map (fun k : Nat => (k : Int)) :=
  normalize_host_ids_contiguous exWorkersCluster (by decide)

/-- Claim C4, counterexample: the claimed SAN
`metrics-server.kube-system.svc.cluster.local` is not among the certificate's
DNS names — the fully-qualified name is emitted with a trailing dot, because
the source joins `[serviceCommonName, domain, ""]` with `"."`. -/
theorem newSignedTLSCert_fqdn_trailing_dot :
    "metrics-server.kube-system.svc.cluster.local" ∉
      (NewSignedTLSCert "metrics-server" "kube-system" "cluster.local" exCACert).dnsNames ∧
    (NewSignedTLSCert "metrics-server" "kube-system" "cluster.local" exCACert).dnsNames =
      ["metrics-server.kube-system.svc.cluster.local.", "metrics-server.kube-system.svc"] := by
  decide

/-- Claim C4, amended: for every name, namespace and domain, the issued leaf
certificate has common name `<name>.<namespace>.svc`, subject alternative
DNS names exactly `<name>.<namespace>.svc.<domain>.` (the fully-qualified
form with a trailing dot) and `<name>.<namespace>.svc`, extended key usage
restricted to server authentication, and is signed by the given CA
certificate. -/
theorem newSignedTLSCert_shape (name ns domain : String) (caCert : Certificate) :
    (NewSignedTLSCert name ns domain caCert).subjectCommonName =
        name ++ "." ++ ns ++ ".svc" ∧
      (NewSignedTLSCert name ns domain caCert).dnsNames =
        [name ++ "." ++ ns ++ ".svc." ++ domain ++ ".",
         name ++ "." ++ ns ++ ".svc"] ∧
      (NewSignedTLSCert name ns domain caCert).extKeyUsage = [ExtKeyUsage.serverAuth] ∧
      (NewSignedTLSCert name ns domain caCert).issuerCommonName =
        caCert.subjectCommonName := by
  have hdot : ("." ++ "svc" : String) = ".svc" := rfl
  have hdot2 : (".svc" ++ "." : String) = ".svc." := rfl
  have hsvc : name ++ "." ++ ns ++ "." ++ "svc" = name ++ "." ++ ns ++ ".svc" := by
    rw [String.append_assoc (name ++ "." ++ ns), hdot]
  have hcn : goJoin [name, ns, "svc"] "." = name ++ "." ++ ns ++ ".svc" := by
    show name ++ "." ++ ns ++ "." ++ "svc" = _
    rw [hsvc]
  refine ⟨hcn, ?_, rfl, rfl⟩
  show [goJoin [goJoin [name, ns, "svc"] ".", domain, ""] ".", goJoin [name, ns, "svc"] "."] = _
  show [goJoin [name, ns, "svc"] "." ++ "." ++ domain ++ "." ++ "",
        goJoin [name, ns, "svc"] "."] = _
  rw [hcn, String.append_empty]
  have hlast : name ++ "." ++ ns ++ ".svc" ++ "." = name ++ "." ++ ns ++ ".svc." := by
    rw [String.append_assoc (name ++ "." ++ ns), hdot2]
  rw [hlast]

/-- Claim C5: `CAKeyPair` reports a not-found error naming the missing bundle
entry, a parse error on malformed PEM (certificate or key), an
empty-certificate error when the certificate entry decodes to zero
certificates, a key-type error when the parsed key is not RSA, and on success
returns the RSA key together with the first parsed certificate. -/
theorem caKeyPair_error_taxonomy (cfg : Configuration) :
    (mapLookup cfg.kubernetesPKI KubernetesCACertPath = none →
      CAKeyPair cfg = .error (.notFound KubernetesCACertPath)) ∧
    (∀ cb, mapLookup cfg.kubernetesPKI KubernetesCACertPath = some cb →
      mapLookup cfg.kubernetesPKI KubernetesCAKeyPath = none →
      CAKeyPair cfg = .error (.notFound KubernetesCAKeyPath)) ∧
    (∀ kb, mapLookup cfg.kubernetesPKI KubernetesCACertPath = some .malformed →
      mapLookup cfg.kubernetesPKI KubernetesCAKeyPath = some kb →
      CAKeyPair cfg = .error .parseError) ∧
    (∀ c cs, mapLookup cfg.kubernetesPKI KubernetesCACertPath = some (.certs (c :: cs)) →
      mapLookup cfg.kubernetesPKI KubernetesCAKeyPath = some .malformed →
      CAKeyPair cfg = .error .parseError) ∧
    (∀ kb, mapLookup cfg.kubernetesPKI KubernetesCACertPath = some (.certs []) →
      mapLookup cfg.kubernetesPKI KubernetesCAKeyPath = some kb →
      CAKeyPair cfg = .error .emptyCerts) ∧
    (∀ c cs k, mapLookup cfg.kubernetesPKI KubernetesCACertPath = some (.certs (c :: cs)) →
      mapLookup cfg.kubernetesPKI KubernetesCAKeyPath = some (.key k) →
      k.isRSA = false → CAKeyPair cfg = .error .notRSA) ∧
    (∀ c cs m, mapLookup cfg.kubernetesPKI KubernetesCACertPath = some (.certs (c :: cs)) →
      mapLookup cfg.kubernetesPKI KubernetesCAKeyPath = some (.key (.rsa m)) →
      CAKeyPair cfg = .ok (m, c)) := by
  refine ⟨fun h1 => ?_, fun cb h1 h2 => ?_, fun kb h1 h2 => ?_, fun c cs h1 h2 => ?_,
    fun kb h1 h2 => ?_, fun c cs k h1 h2 hk => ?_, fun c cs m h1 h2 => ?_⟩
  · simp [CAKeyPair, h1]
  · simp [CAKeyPair, h1, h2]
  · simp [CAKeyPair, h1, h2, ParseCertsPEM]
  · simp [CAKeyPair, h1, h2, ParseCertsPEM, ParsePrivateKeyPEM]
  · simp [CAKeyPair, h1, h2, ParseCertsPEM]
  · cases k with
    | rsa m => simp [ParsedPrivateKey.isRSA] at hk
    | ecdsa m => simp [CAKeyPair, h1, h2, ParseCertsPEM, ParsePrivateKeyPEM]
    | ed25519 m => simp [CAKeyPair, h1, h2, ParseCertsPEM, ParsePrivateKeyPEM]
  · simp [CAKeyPair, h1, h2, ParseCertsPEM, ParsePrivateKeyPEM]

/-- Witness for claim C5: all six outcomes at concrete PKI bundles. -/
theorem caKeyPair_error_taxonomy_witness :
    CAKeyPair exCAConfigNoCert = .error (.notFound KubernetesCACertPath) ∧
    CAKeyPair exCAConfigNoKey = .error (.notFound KubernetesCAKeyPath) ∧
    CAKeyPair exCAConfigMalformed = .error .parseError ∧
    CAKeyPair exCAConfigEmptyCerts = .error .emptyCerts ∧
    CAKeyPair exCAConfigECKey = .error .notRSA ∧
    CAKeyPair exCAConfigOK = .ok (7, exCACert) :=
  ⟨(caKeyPair_error_taxonomy exCAConfigNoCert).1 (by decide),
   (caKeyPair_error_taxonomy exCAConfigNoKey).2.1 (.certs [exCACert]) (by decide) (by decide),
   (caKeyPair_error_taxonomy exCAConfigMalformed).2.2.1 (.key (.rsa 7)) (by decide) (by decide),
   (caKeyPair_error_taxonomy exCAConfigEmptyCerts).2.2.2.2.1 (.key (.rsa 7)) (by decide)
     (by decide),
   (caKeyPair_error_taxonomy exCAConfigECKey).2.2.2.2.2.1 exCACert [] (.ecdsa 9) (by decide)
     (by decide) (by decide),
   (caKeyPair_error_taxonomy exCAConfigOK).2.2.2.2.2.2 exCACert [] 7 (by decide) (by decide)⟩

/-- Claim C6 (code bug): with the AWS cloud provider configured and the CNI
left unset, normalization resolves the default Canal MTU to 1450, not the
8951 the code's own comment (`9001 AWS Jumbo Frame - 50 VXLAN bytes`)
documents — `defaulti(defaultCanal.MTU, 8951)` is applied to an MTU already
initialized to the non-zero `DefaultCanalMTU`, so every provider branch of
the switch is dead; with no recognized provider the MTU is 1450 as claimed. -/
theorem canal_mtu_resolves_1450_even_on_aws :
    ((SetDefaults_KubeOneCluster exAWSCluster).clusterNetwork.cni.bind (·.canal)).map (·.mtu) =
        some 1450 ∧
      ((SetDefaults_KubeOneCluster exNoProviderCluster).clusterNetwork.cni.bind
        (·.canal)).map (·.mtu) = some 1450 ∧
      canalDefaultMTU exAWSCluster.cloudProvider = 1450 := by
  refine ⟨rfl, rfl, rfl⟩

/-- Claim C7: version sanitization turns `"v1.23.0"` into `"1.23.0"` and, the
version being at least 1.22, container-runtime defaulting selects containerd;
for `"v1.20.5"` both runtime fields stay unset. -/
theorem container_runtime_version_threshold :
    (SetDefaults_KubeOneCluster exRuntimeHighCluster).versions.kubernetes = "1.23.0" ∧
      (SetDefaults_KubeOneCluster exRuntimeHighCluster).containerRuntime.containerd =
        some ⟨⟩ ∧
      (SetDefaults_KubeOneCluster exRuntimeHighCluster).containerRuntime.docker = none ∧
      (SetDefaults_KubeOneCluster exRuntimeLowCluster).versions.kubernetes = "1.20.5" ∧
      (SetDefaults_KubeOneCluster exRuntimeLowCluster).containerRuntime.containerd = none ∧
      (SetDefaults_KubeOneCluster exRuntimeLowCluster).containerRuntime.docker = none := by
  refine ⟨by decide, by decide, by decide, by decide, by decide, by decide⟩

/-- Claim C8: every successfully generated machine-deployment descriptor has
rolling-update policy maxSurge=0 / maxUnavailable=1 when the pool declares a
static network configuration, and maxSurge=1 / maxUnavailable=0 otherwise. -/
theorem machinedeployment_rolling_update_policy (cluster : KubeOneCluster)
    (workerset : DynamicWorkerConfig) (md : MachineDeployment)
    (h : createMachineDeployment cluster workerset = .ok md) :
    (workerset.config.network.isSome = true → md.maxSurge = 0 ∧ md.maxUnavailable = 1) ∧
    (workerset.config.network = none → md.maxSurge = 1 ∧ md.maxUnavailable = 0) := by
  simp only [createMachineDeployment] at h
  rcases hms : machineSpec cluster workerset cluster.cloudProvider with e | fields
  · rw [hms] at h
    exact absurd h (by simp)
  · rw [hms] at h
    rcases hr : workerset.replicas with _ | r
    · rw [hr] at h
      exact absurd h (by simp)
    · rw [hr] at h
      by_cases hn : workerset.config.network.isSome
      · simp only [hn, if_true, Except.ok.injEq] at h
        subst h
        constructor
        · intro _
          exact ⟨rfl, rfl⟩
        · intro hnone
          rw [hnone] at hn
          simp at hn
      · simp only [hn, if_false, Except.ok.injEq] at h
        subst h
        constructor
        · intro ht
          exact absurd ht (by simp [hn])
        · intro _
          exact ⟨rfl, rfl⟩

/-- Witness for claim C8: one pool with a static network block and one
without, at concrete inputs. -/
theorem machinedeployment_rolling_update_policy_witness :
    (mdOf (createMachineDeployment exNoProviderCluster exStaticNetPool)).maxSurge = 0 ∧
    (mdOf (createMachineDeployment exNoProviderCluster exStaticNetPool)).maxUnavailable = 1 ∧
    (mdOf (createMachineDeployment exNoProviderCluster exDynamicPool)).maxSurge = 1 ∧
    (mdOf (createMachineDeployment exNoProviderCluster exDynamicPool)).maxUnavailable = 0 := by
  have h1 : createMachineDeployment exNoProviderCluster exStaticNetPool =
      .ok (mdOf (createMachineDeployment exNoProviderCluster exStaticNetPool)) := rfl
  have h2 : createMachineDeployment exNoProviderCluster exDynamicPool =
      .ok (mdOf (createMachineDeployment exNoProviderCluster exDynamicPool)) := rfl
  have r1 := (machinedeployment_rolling_update_policy _ _ _ h1).1 rfl
  have r2 := (machinedeployment_rolling_update_policy _ _ _ h2).2 rfl
  exact ⟨r1.1, r1.2, r2.1, r2.2⟩

/-- Claim C9: for an AWS pool whose payload parses and carries a tag map, the
generated payload's tag map preserves every tag under a key other than
`kubernetes.io/cluster/<clusterName>`, maps that key to `"shared"`, and
contains it exactly once; generation itself succeeds. -/
theorem machineSpec_aws_tag_injection (cluster : KubeOneCluster)
    (workerset : DynamicWorkerConfig) (j : JsonValue) (m : List (String × String))
    (haws : cluster.cloudProvider.aws.isSome = true)
    (hspec : workerset.config.cloudProviderSpec = some j)
    (hm : unmarshalAWSSpec j = .ok { tags := some m }) :
    (∀ e, machineSpec cluster workerset cluster.cloudProvider ≠ .error e) ∧
    (∀ k, k ≠ "kubernetes.io/cluster/" ++ cluster.name →
      mapLookup (tagsOfMachineSpec cluster workerset) k = mapLookup m k) ∧
    mapLookup (tagsOfMachineSpec cluster workerset)
      ("kubernetes.io/cluster/" ++ cluster.name) = some "shared" ∧
    countKey (tagsOfMachineSpec cluster workerset)
      ("kubernetes.io/cluster/" ++ cluster.name) = 1 := by
  have hms : machineSpec cluster workerset cluster.cloudProvider =
      .ok [("tags", JsonValue.obj
        ((mapSet m ("kubernetes.io/cluster/" ++ cluster.name) "shared").map strEntryEncode))] := by
    simp only [machineSpec, hspec, haws, if_true, hm]
    rfl
  have htags : tagsOfMachineSpec cluster workerset =
      mapSet m ("kubernetes.io/cluster/" ++ cluster.name) "shared" := by
    simp [tagsOfMachineSpec, hms, mapLookup, filterMap_decode_encode,
      filterMap_decode_encode_comp]
  refine ⟨?_, ?_, ?_, ?_⟩
  · intro e he
    rw [hms] at he
    exact Except.noConfusion he
  · intro k hk
    rw [htags, mapLookup_mapSet_ne _ _ _ _ hk]
  · rw [htags, mapLookup_mapSet_self]
  · rw [htags]
    exact countKey_mapSet_self _ _ _ (unmarshalAWSSpec_countKey_le j m hm _)

/-- Witness for claim C9 at a concrete AWS pool carrying the tag
`team = dev`. -/
theorem machineSpec_aws_tag_injection_witness :
    mapLookup (tagsOfMachineSpec exAWSTagCluster exAWSPool) "team" = some "dev" ∧
    mapLookup (tagsOfMachineSpec exAWSTagCluster exAWSPool)
      ("kubernetes.io/cluster/" ++ exAWSTagCluster.name) = some "shared" ∧
    countKey (tagsOfMachineSpec exAWSTagCluster exAWSPool)
      ("kubernetes.io/cluster/" ++ exAWSTagCluster.name) = 1 := by
  have h := machineSpec_aws_tag_injection exAWSTagCluster exAWSPool
    (.obj [("tags", .obj [("team", .str "dev")])]) [("team", "dev")] rfl rfl rfl
  refine ⟨?_, h.2.2.1, h.2.2.2⟩
  rw [h.2.1 "team" (by decide)]
  rfl

/-- Claim C10, counterexample: for a pool with an unset replica count and a
parsable payload, descriptor generation ends in the modelled nil-pointer
panic (`int32(*workerset.Replicas)` dereferences a nil pointer), which is not
an error value returned to the caller — so no descriptive validation error is
returned. -/
theorem nil_replicas_panic_counterexample :
    createMachineDeployment exNoProviderCluster exNilReplicasPool =
        .error .panicNilReplicas ∧
      GenError.isReturnedError .panicNilReplicas = false := ⟨rfl, rfl⟩

/-- Claim C10, amended: for every pool whose replica count is unset and whose
provider payload resolves, descriptor generation fails before producing any
descriptor — but through the nil-pointer dereference of `Replicas` (a Go
runtime panic), not through a descriptive validation error returned to the
caller. -/
theorem nil_replicas_panics_not_validation_error (cluster : KubeOneCluster)
    (workerset : DynamicWorkerConfig) (out : List (String × JsonValue))
    (hr : workerset.replicas = none)
    (hms : machineSpec cluster workerset cluster.cloudProvider = .ok out) :
    createMachineDeployment cluster workerset = .error .panicNilReplicas ∧
      GenError.isReturnedError .panicNilReplicas = false := by
  refine ⟨?_, rfl⟩
  simp only [createMachineDeployment, hms, hr]

/-- Witness for the amended claim C10 at a concrete pool, with the
hypotheses discharged explicitly. -/
theorem nil_replicas_panics_not_validation_error_witness :
    exNilReplicasPool.replicas = none ∧
      machineSpec exNoProviderCluster exNilReplicasPool exNoProviderCluster.cloudProvider =
        .ok [] ∧
      createMachineDeployment exNoProviderCluster exNilReplicasPool =
        .error .panicNilReplicas :=
  ⟨rfl, rfl,
   (nil_replicas_panics_not_validation_error exNoProviderCluster exNilReplicasPool [] rfl rfl).1⟩
